import Mathlib

/-!
# gpx2pdf: waypoints from a GPX file placed on a GeoPDF page

A shallow embedding of the class `gpx2pdf` (src/gpx2pdf.h, src/gpx2pdf.cpp).

Modelling conventions.

* The value of a C++ `double` is a rational number (`ℚ`).  The arithmetic of the source
  is read twice.  The definitions named as the source names them compute in exact
  arithmetic: rounding and overflow of the floating-point format are left out.  The
  definitions whose names end in `Fl` compute in double arithmetic: every operation is
  followed by `fl`, the rounding to the nearest binary64 number (section "Double
  arithmetic").  In both readings a division by zero gives a non-finite value (an
  infinity or a NaN), written `none` in a value of type `Option ℚ`.  A non-finite value
  stays non-finite under further multiplication and division and fails a two-sided
  comparison `v >= 0 && v <= bound` against a finite `bound`.
* A `QString` is the sequence of its UTF-16 code units; a `std::string` and the text of
  an XML element are a `String`.
* The libraries the class calls (Qt XML, GDAL/OGR, PoDoFo) are collaborators.  What
  they answer is a parameter of the model, collected in the structure `World`.
* An `int` counter is an `Int`; the counters of the class are bounded by the
  number of stored waypoints.
* Console output is not modelled.
-/

namespace Gpx2Pdf

/-! ## Data model (src/gpx2pdf.h) -/

/-- Result codes, the enum `g2pErr` of src/gpx2pdf.h lines 38-46. -/
inductive g2pErr
  | SUCCESS
  | ERROR
  | EMPTY_DATA
  | INVALID_ARGUMENT
  | FILE_ERROR
  | PARSE_ERROR
  deriving DecidableEq, Repr

/-- Numeric value of a result code as declared in the enum. -/
def g2pErr.toNat : g2pErr → Nat
  | .SUCCESS => 0
  | .ERROR => 1
  | .EMPTY_DATA => 2
  | .INVALID_ARGUMENT => 3
  | .FILE_ERROR => 4
  | .PARSE_ERROR => 5

/-- The private struct `waypoint` of src/gpx2pdf.h lines 143-147. -/
structure waypoint where
  lat : ℚ
  lon : ℚ
  name : String
  deriving DecidableEq, Repr

/-- An OGR spatial reference, identified by its definition text. -/
structure OGRSpatialReference where
  wkt : String
  deriving DecidableEq, Repr

/-- An OGR coordinate transformation.  `Transform x y` is the call
`Transform(1, &x, &y)`: `none` when the call returns false, otherwise the
transformed pair that the call leaves in its two arguments. -/
structure OGRCoordinateTransformation where
  Transform : ℚ → ℚ → Option (ℚ × ℚ)

/-- The member variables of class `gpx2pdf` (src/gpx2pdf.h lines 162-180).
`adfGeoTransform i` is the array entry `adfGeoTransform[i]`; a null pointer is
`none`. -/
structure gpx2pdf where
  gpxFile : String
  pdfFileIn : String
  pdfFileOut : String
  pageNumber : Int
  pdfPassword : String
  useGeocacheName : Bool
  useGsakSmartName : Bool
  maxNameLength : Int
  nameFontSize : ℚ
  waypoints : List waypoint
  pdfSRS : Option OGRSpatialReference
  WGS84 : OGRSpatialReference
  coordTF : Option OGRCoordinateTransformation
  adfGeoTransform : Fin 6 → ℚ
  xPixels : Int
  yPixels : Int

/-- The constructor, src/gpx2pdf.cpp lines 26-40.  The array `adfGeoTransform` is
not initialised by the constructor; `garbage` stands for whatever it holds. -/
def gpx2pdf.new (gpxFile pdfFileIn pdfFileOut : String) (garbage : Fin 6 → ℚ) : gpx2pdf where
  gpxFile := gpxFile
  pdfFileIn := pdfFileIn
  pdfFileOut := pdfFileOut
  pageNumber := 1
  pdfPassword := ""
  useGeocacheName := true
  useGsakSmartName := true
  maxNameLength := 10
  nameFontSize := 8
  waypoints := []
  pdfSRS := none
  WGS84 := ⟨"WGS84"⟩
  coordTF := none
  adfGeoTransform := garbage
  xPixels := 0
  yPixels := 0

/-! ## Coordinate mapper (src/gpx2pdf.cpp lines 384-407) -/

/-- Division of two finite doubles: non-finite (`none`) when the divisor is zero. -/
def fdiv (a b : ℚ) : Option ℚ :=
  if b = 0 then none else some (a / b)

/-- Product of a finite double and a possibly non-finite one. -/
def fmul (a : ℚ) (b : Option ℚ) : Option ℚ :=
  b.map (fun d => a * d)

/-- The method `convertCoordsToPixels`, src/gpx2pdf.cpp lines 384-407.  The
arguments `x` and `y` are the values of `*x` and `*y` before the call; the result
holds the return code and the values of `*x` and `*y` after the call. -/
def gpx2pdf.convertCoordsToPixels (self : gpx2pdf) (lat lon : ℚ) (x y : Option ℚ) :
    g2pErr × Option ℚ × Option ℚ :=
  match self.coordTF with
  | none => (g2pErr.ERROR, x, y)
  | some coordTF =>
    let x_i := lat
    let y_i := lon
    match coordTF.Transform x_i y_i with
    | none => (g2pErr.INVALID_ARGUMENT, x, y)
    | some (x_i, y_i) =>
      let determinant := fdiv 1 (self.adfGeoTransform 1 * self.adfGeoTransform 5
        - self.adfGeoTransform 2 * self.adfGeoTransform 4)
      let x := fmul (((x_i - self.adfGeoTransform 0) * self.adfGeoTransform 5)
        + ((y_i - self.adfGeoTransform 3) * -1 * self.adfGeoTransform 4)) determinant
      let y := fmul (((x_i - self.adfGeoTransform 0) * -1 * self.adfGeoTransform 2)
        + ((y_i - self.adfGeoTransform 3) * self.adfGeoTransform 1)) determinant
      (g2pErr.SUCCESS, x, y)

/-- The forward affine quoted in src/gpx2pdf.cpp lines 398-399 (from the GDAL
documentation): pixel `(P, L)` to world coordinates `(Xp, Yp)`. -/
def affineForward (g : Fin 6 → ℚ) (P L : ℚ) : ℚ × ℚ :=
  (g 0 + P * g 1 + L * g 2, g 3 + P * g 4 + L * g 5)

/-! ## Collaborators: the GPX document, the GDAL dataset, the PoDoFo document -/

/-- A `wpt` element of the parsed GPX document, as far as `loadGpx` reads it:
the numeric values (`toDouble`) of the attributes `lat` and `lon` when the
attribute exists, and the text of the child elements `name`,
`groundspeak:cache/groundspeak:name` and `gsak:wptExtension/gsak:SmartName` when
the child exists and is an element. -/
structure XmlWaypoint where
  lat : Option ℚ
  lon : Option ℚ
  name : Option String
  cacheName : Option String
  gsakSmartName : Option String
  deriving DecidableEq, Repr

/-- What opening and parsing the GPX file gives (src/gpx2pdf.cpp lines 77-89). -/
inductive GpxFile
  | unreadable
  | invalid
  | parsed (xmlWaypoints : List XmlWaypoint)
  deriving DecidableEq, Repr

/-- The GDAL dataset opened on the PDF file.  `GetGeoTransform` holds whether the call
returned `CE_None` together with the six coefficients the call writes into its
argument. -/
structure GDALDataset where
  GetGeoTransform : Bool × (Fin 6 → ℚ)
  GetRasterXSize : Int
  GetRasterYSize : Int
  GetSpatialRef : Option OGRSpatialReference

/-- What a PoDoFo call throws. -/
inductive PdfThrown
  | InvalidPassword
  | PdfError
  | Other
  deriving DecidableEq, Repr

/-- The size of a page in PDF units (`GetPageSize`). -/
structure PdfPage where
  width : ℚ
  height : ℚ
  deriving DecidableEq, Repr

/-- Horizontal text alignment of PoDoFo. -/
inductive EPdfAlignment
  | Left
  | Center
  | Right
  deriving DecidableEq, Repr

/-- Vertical text alignment of PoDoFo. -/
inductive EPdfVerticalAlignment
  | Top
  | Center
  | Bottom
  deriving DecidableEq, Repr

/-- The calls `savePdf` makes on its `PdfPainter`, with their arguments.  A colour is
given by its red, green and blue components; `SetFont` carries the font size set
on the font before. -/
inductive PainterOp
  | SetPage
  | SetFont (size : ℚ)
  | SetStrokingColor (r g b : ℚ)
  | SetStrokeWidth (width : ℚ)
  | SetColor (r g b : ℚ)
  | Rectangle (x y width height : ℚ)
  | FillAndStroke
  | DrawLine (x1 y1 x2 y2 : ℚ)
  | Circle (x y radius : ℚ)
  | DrawMultiLineText (x y width height : ℚ) (text : String)
      (alignment : EPdfAlignment) (vertical : EPdfVerticalAlignment)
  | FinishPage
  deriving DecidableEq, Repr

/-- Font metrics: `StringWidth size text` is the width of `text` at font size `size`. -/
structure PdfFontMetrics where
  StringWidth : ℚ → String → ℚ

/-- A font created in the document; `GetFontMetrics` may return null. -/
structure PdfFont where
  GetFontMetrics : Option PdfFontMetrics

/-- How the PoDoFo document of a PDF file answers the calls of `savePdf`.  `Load` and
`SetPassword` hold the exception thrown, if any; `GetPage` and `CreateFont` throw
or return a pointer that may be null; `throws op` tells whether the painter call
`op` throws; `Write path` tells whether writing to `path` returns normally (it
throws a `PdfError` otherwise). -/
structure PdfMemDocument where
  Load : Option PdfThrown
  SetPassword : String → Option PdfThrown
  GetPageCount : Int
  GetPage : Int → Except PdfThrown (Option PdfPage)
  CreateFont : String → Except PdfThrown (Option PdfFont)
  throws : PainterOp → Bool
  Write : String → Bool

/-- The answers of the collaborators: the GPX file at a path, `GDALDataset::Open` on
a path with the open options, `OGRSpatialReference::Clone`,
`OGRCreateCoordinateTransformation` on a source and a target reference, and the
PoDoFo document of the file at a path. -/
structure World where
  gpx : String → GpxFile
  GDALOpen : String → Option String → Option GDALDataset
  Clone : OGRSpatialReference → Option OGRSpatialReference
  OGRCreateCoordinateTransformation :
    OGRSpatialReference → OGRSpatialReference → Option OGRCoordinateTransformation
  pdf : String → PdfMemDocument

/-! ## loadGpx (src/gpx2pdf.cpp lines 73-128) -/

/-- The UTF-16 code units of a character: the character itself when it lies in the
Basic Multilingual Plane, otherwise its high and its low surrogate. -/
def utf16 (c : Char) : List Nat :=
  if c.toNat < 0x10000 then [c.toNat]
  else [0xD800 + (c.toNat - 0x10000) / 0x400, 0xDC00 + (c.toNat - 0x10000) % 0x400]

/-- A `QString`: the sequence of its UTF-16 code units, the characters that the
methods of `QString` count. -/
structure QString where
  units : List Nat
  deriving DecidableEq, Repr

/-- The `QString` that holds a text, as `QDomElement::text()` returns it. -/
def QString.fromText (text : String) : QString :=
  { units := text.data.flatMap utf16 }

/-- The call `QString::left(n)`: the `n` leftmost code units, the whole string when `n`
is negative or not smaller than the length. -/
def QString.left (s : QString) (n : Int) : QString :=
  if n < 0 ∨ (s.units.length : Int) ≤ n then s else { units := s.units.take n.toNat }

/-- The question mark, which the UTF-8 encoder of Qt writes for a surrogate that has no
partner. -/
def questionMark : Char := Char.ofNat 63

/-- The text that a sequence of UTF-16 code units encodes: a high surrogate followed by
a low surrogate is one character, any other surrogate is a question mark. -/
def decodeUtf16 : List Nat → List Char
  | [] => []
  | [u] => [if 0xD800 ≤ u ∧ u < 0xE000 then questionMark else Char.ofNat u]
  | u :: v :: rest =>
    if 0xD800 ≤ u ∧ u < 0xDC00 ∧ 0xDC00 ≤ v ∧ v < 0xE000 then
      Char.ofNat (0x10000 + (u - 0xD800) * 0x400 + (v - 0xDC00)) :: decodeUtf16 rest
    else
      (if 0xD800 ≤ u ∧ u < 0xE000 then questionMark else Char.ofNat u)
        :: decodeUtf16 (v :: rest)

/-- The call `QString::toStdString()`: the UTF-8 string of the text, read as text. -/
def QString.toStdString (s : QString) : String :=
  String.mk (decodeUtf16 s.units)

/-- One turn of the loop over the `wpt` elements, src/gpx2pdf.cpp lines 90-121:
`waypoints` is the stored vector before the turn, the result the vector after. -/
def gpx2pdf.loadGpxStep (self : gpx2pdf) (waypoints : List waypoint)
    (xmlWaypoint : XmlWaypoint) : List waypoint :=
  match xmlWaypoint.lat, xmlWaypoint.lon with
  | some lat, some lon =>
    match xmlWaypoint.name with
    | none => waypoints
    | some nameText =>
      let nameStr := QString.fromText nameText
      let nameStr :=
        if self.useGeocacheName then
          match xmlWaypoint.cacheName with
          | some cacheName => QString.fromText cacheName
          | none => nameStr
        else nameStr
      let nameStr :=
        if self.useGsakSmartName then
          match xmlWaypoint.gsakSmartName with
          | some gsakName => QString.fromText gsakName
          | none => nameStr
        else nameStr
      let nameStr := if self.maxNameLength ≥ 0 then nameStr.left self.maxNameLength else nameStr
      waypoints ++ [{ lat := lat, lon := lon, name := nameStr.toStdString }]
  | _, _ => waypoints

/-- The method `loadGpx`, src/gpx2pdf.cpp lines 73-128: the return code and the
instance after the call. -/
def gpx2pdf.loadGpx (self : gpx2pdf) (w : World) : g2pErr × gpx2pdf :=
  match w.gpx self.gpxFile with
  | .unreadable => (g2pErr.FILE_ERROR, self)
  | .invalid => (g2pErr.PARSE_ERROR, self)
  | .parsed xmlWaypoints =>
    let self := { self with waypoints := xmlWaypoints.foldl self.loadGpxStep self.waypoints }
    if self.waypoints.length < 1 then (g2pErr.EMPTY_DATA, self)
    else (g2pErr.SUCCESS, self)

/-! ## getGeospatialData (src/gpx2pdf.cpp lines 315-358) -/

/-- The method `getGeospatialData`, src/gpx2pdf.cpp lines 315-358: the return code
and the instance after the call. -/
def gpx2pdf.getGeospatialData (self : gpx2pdf) (w : World) : g2pErr × gpx2pdf :=
  let optionStr := "USER_PWD=" ++ self.pdfPassword
  match w.GDALOpen self.pdfFileIn (if self.pdfPassword.length ≠ 0 then some optionStr else none) with
  | none => (g2pErr.FILE_ERROR, self)
  | some pdfDataset =>
    let self := { self with adfGeoTransform := pdfDataset.GetGeoTransform.2 }
    if pdfDataset.GetGeoTransform.1 then
      let self := { self with xPixels := pdfDataset.GetRasterXSize,
                              yPixels := pdfDataset.GetRasterYSize }
      match pdfDataset.GetSpatialRef with
      | some spatialRef =>
        let self := { self with pdfSRS := w.Clone spatialRef }
        match self.pdfSRS with
        | some pdfSRS =>
          (g2pErr.SUCCESS,
            { self with coordTF := w.OGRCreateCoordinateTransformation self.WGS84 pdfSRS })
        | none => (g2pErr.SUCCESS, self)
      | none => (g2pErr.ERROR, self)
    else (g2pErr.PARSE_ERROR, self)

/-! ## savePdf (src/gpx2pdf.cpp lines 130-313) -/

/-- The local state of the loop over the waypoints in `savePdf`: the painter calls
carried out so far and the locals `waypointCount` and `convertError`. -/
structure LoopState where
  ops : List PainterOp
  waypointCount : Int
  convertError : Bool
  deriving DecidableEq, Repr

/-- A run of painter calls: `none` when one of the calls throws, otherwise the calls
are added to those carried out before. -/
def paint (doc : PdfMemDocument) (done ops : List PainterOp) : Option (List PainterOp) :=
  if ops.any doc.throws then none else some (done ++ ops)

/-- The conversion of pixels to PDF units, src/gpx2pdf.cpp lines 241-242:
`x * pageSize / static_cast<double>(pixels)`. -/
def toPdfUnits (x : Option ℚ) (pageSize : ℚ) (pixels : Int) : Option ℚ :=
  x.bind (fun x => fdiv (x * pageSize) (pixels : ℚ))

/-- The test of src/gpx2pdf.cpp line 245 on finite values,
`x >= 0 && x <= pageWidth && y >= 0 && y <= pageHeight`. -/
def onPage (x y pageWidth pageHeight : ℚ) : Bool :=
  decide (x ≥ 0 ∧ x ≤ pageWidth ∧ y ≥ 0 ∧ y ≤ pageHeight)

/-- The painter calls that draw one waypoint at `(x, y)` (PDF units), src/gpx2pdf.cpp
lines 250-269. -/
def markerOps (nameFontSize pageHeight x y textWidth : ℚ) (name : String) : List PainterOp :=
  [ PainterOp.SetColor 1 1 0,
    PainterOp.Rectangle (x - textWidth / 2 - 2) (pageHeight - y + 6) (textWidth + 4)
      (nameFontSize + 3),
    PainterOp.FillAndStroke,
    PainterOp.DrawLine x (pageHeight - y + 6) x (pageHeight - y),
    PainterOp.SetColor 1 1 1,
    PainterOp.Circle x (pageHeight - y) 3,
    PainterOp.FillAndStroke,
    PainterOp.DrawLine x (pageHeight - y + 2) x (pageHeight - y - 2),
    PainterOp.DrawLine (x + 2) (pageHeight - y) (x - 2) (pageHeight - y),
    PainterOp.SetColor 0 0 0,
    PainterOp.DrawMultiLineText (x - textWidth / 2 - 2) (pageHeight - y + 6) (textWidth + 4)
      (nameFontSize + 2) name EPdfAlignment.Center EPdfVerticalAlignment.Center ]

/-- One turn of the loop over the waypoints, src/gpx2pdf.cpp lines 235-275; `none`
when a painter call throws.  A non-finite coordinate fails the test of line 245. -/
def gpx2pdf.savePdfStep (self : gpx2pdf) (doc : PdfMemDocument) (page : PdfPage)
    (fontMetrics : PdfFontMetrics) (s : LoopState) (wp : waypoint) : Option LoopState :=
  let pageHeight := page.height
  let pageWidth := page.width
  match self.convertCoordsToPixels wp.lat wp.lon (some 0) (some 0) with
  | (g2pErr.SUCCESS, x, y) =>
    match toPdfUnits x pageWidth self.xPixels, toPdfUnits y pageHeight self.yPixels with
    | some x, some y =>
      if onPage x y pageWidth pageHeight then
        let textWidth := fontMetrics.StringWidth self.nameFontSize wp.name
        match paint doc s.ops (markerOps self.nameFontSize pageHeight x y textWidth wp.name) with
        | some ops => some { s with ops := ops, waypointCount := s.waypointCount + 1 }
        | none => none
      else some s
    | _, _ => some s
  | _ => some { s with convertError := true }

/-- The loop over the stored waypoints, src/gpx2pdf.cpp lines 233-277. -/
def gpx2pdf.savePdfLoop (self : gpx2pdf) (doc : PdfMemDocument) (page : PdfPage)
    (fontMetrics : PdfFontMetrics) : LoopState → List waypoint → Option LoopState
  | s, [] => some s
  | s, wp :: rest =>
    match self.savePdfStep doc page fontMetrics s wp with
    | some s => self.savePdfLoop doc page fontMetrics s rest
    | none => none

/-- What a call of `savePdf` leaves behind besides its return code: the painter calls
carried out on the page and the locals `waypointCount` and `convertError` when the
loop was completed (empty, zero and false when the function returns before), whether
`Write` was called on the output path, and whether it wrote the file. -/
structure PdfEffects where
  ops : List PainterOp
  waypointCount : Int
  convertError : Bool
  writeCalled : Bool
  written : Bool
  deriving DecidableEq, Repr

/-- Nothing painted, nothing written. -/
def PdfEffects.nothing : PdfEffects :=
  { ops := [], waypointCount := 0, convertError := false, writeCalled := false, written := false }

/-- Loading the document, src/gpx2pdf.cpp lines 137-171: the code returned when the
function returns there, `none` when it goes on. -/
def gpx2pdf.savePdfLoad (self : gpx2pdf) (docPodofo : PdfMemDocument) : Option g2pErr :=
  match docPodofo.Load with
  | none => none
  | some PdfThrown.InvalidPassword =>
    if self.pdfPassword.length ≠ 0 then
      match docPodofo.SetPassword self.pdfPassword with
      | none => none
      | some _ => some g2pErr.ERROR
    else some g2pErr.FILE_ERROR
  | some _ => some g2pErr.ERROR

/-- Getting the page, src/gpx2pdf.cpp lines 173-196: the page, or the code returned. -/
def gpx2pdf.savePdfPage (self : gpx2pdf) (docPodofo : PdfMemDocument) : Except g2pErr PdfPage :=
  let nPages := docPodofo.GetPageCount
  if self.pageNumber < 1 ∨ self.pageNumber > nPages then .error g2pErr.INVALID_ARGUMENT
  else
    match docPodofo.GetPage (self.pageNumber - 1) with
    | .error _ => .error g2pErr.ERROR
    | .ok none => .error g2pErr.INVALID_ARGUMENT
    | .ok (some pagePodofo) => .ok pagePodofo

/-- The painting block, src/gpx2pdf.cpp lines 198-281, up to `FinishPage`: the loop
state after `FinishPage`, or `none` when the block returns `ERROR` (an exception, a
null font or null font metrics). -/
def gpx2pdf.savePdfPaint (self : gpx2pdf) (docPodofo : PdfMemDocument) (pagePodofo : PdfPage) :
    Option LoopState :=
  match paint docPodofo [] [PainterOp.SetPage] with
  | none => none
  | some ops =>
    match docPodofo.CreateFont "Helvetica" with
    | .ok (some pFont) =>
      match paint docPodofo ops [PainterOp.SetFont self.nameFontSize] with
      | none => none
      | some ops =>
        match pFont.GetFontMetrics with
        | none => none
        | some fontMetrics =>
          match paint docPodofo ops
              [PainterOp.SetStrokingColor 0 0 0, PainterOp.SetStrokeWidth 1] with
          | none => none
          | some ops =>
            match self.savePdfLoop docPodofo pagePodofo fontMetrics
                { ops := ops, waypointCount := 0, convertError := false } self.waypoints with
            | none => none
            | some s =>
              match paint docPodofo s.ops [PainterOp.FinishPage] with
              | none => none
              | some ops => some { s with ops := ops }
    | _ => none

/-- The method `savePdf`, src/gpx2pdf.cpp lines 130-313: the return code and what the
call leaves behind.  The instance is not changed. -/
def gpx2pdf.savePdf (self : gpx2pdf) (w : World) : g2pErr × PdfEffects :=
  let docPodofo := w.pdf self.pdfFileIn
  match self.savePdfLoad docPodofo with
  | some err => (err, PdfEffects.nothing)
  | none =>
    match self.savePdfPage docPodofo with
    | .error err => (err, PdfEffects.nothing)
    | .ok pagePodofo =>
      match self.savePdfPaint docPodofo pagePodofo with
      | none => (g2pErr.ERROR, PdfEffects.nothing)
      | some s =>
        let painted : PdfEffects :=
          { ops := s.ops, waypointCount := s.waypointCount, convertError := s.convertError,
            writeCalled := false, written := false }
        if s.waypointCount ≤ 0 then (g2pErr.INVALID_ARGUMENT, painted)
        else if docPodofo.Write self.pdfFileOut then
          (g2pErr.SUCCESS, { painted with writeCalled := true, written := true })
        else (g2pErr.ERROR, { painted with writeCalled := true })

/-! ## doConversion (src/gpx2pdf.cpp lines 49-66) -/

/-- A run of `doConversion`: the code returned, the instance after the run and what
`savePdf` left behind (`PdfEffects.nothing` when it was not called). -/
structure Run where
  result : g2pErr
  self : gpx2pdf
  pdf : PdfEffects

/-- The method `doConversion`, src/gpx2pdf.cpp lines 49-66. -/
def gpx2pdf.doConversion (self : gpx2pdf) (w : World) : Run :=
  let loaded := self.loadGpx w
  if loaded.1 ≠ g2pErr.SUCCESS then
    { result := loaded.1, self := loaded.2, pdf := PdfEffects.nothing }
  else
    let resolved := loaded.2.getGeospatialData w
    if resolved.1 ≠ g2pErr.SUCCESS then
      { result := resolved.1, self := resolved.2, pdf := PdfEffects.nothing }
    else
      let saved := resolved.2.savePdf w
      { result := saved.1, self := resolved.2, pdf := saved.2 }

/-! ## Reading the loop: which waypoints are placed -/

/-- A waypoint is converted successfully and lies on the page, in the words of the
specification (sections 4.2 and 4.3): the conversion returns `SUCCESS` with a finite
pixel `(px, py)`, the page scale `pageSize / pixels` exists, and
`0 ≤ unitX ≤ pageWidth`, `0 ≤ unitY ≤ pageHeight` for `unitX = px * (pageWidth / xPixels)`
and `unitY = py * (pageHeight / yPixels)`. -/
def gpx2pdf.placeable (self : gpx2pdf) (page : PdfPage) (wp : waypoint) : Bool :=
  match self.convertCoordsToPixels wp.lat wp.lon (some 0) (some 0) with
  | (g2pErr.SUCCESS, some px, some py) =>
    decide (self.xPixels ≠ 0 ∧ self.yPixels ≠ 0 ∧
      0 ≤ px * (page.width / self.xPixels) ∧ px * (page.width / self.xPixels) ≤ page.width ∧
      0 ≤ py * (page.height / self.yPixels) ∧ py * (page.height / self.yPixels) ≤ page.height)
  | _ => false

/-- The coordinate conversion of a waypoint does not return `SUCCESS`. -/
def gpx2pdf.convertFails (self : gpx2pdf) (wp : waypoint) : Bool :=
  decide ((self.convertCoordsToPixels wp.lat wp.lon (some 0) (some 0)).1 ≠ g2pErr.SUCCESS)

/-- The painter calls that belong to a waypoint: those of its marker at
`(px * (pageWidth / xPixels), py * (pageHeight / yPixels))` when it is placeable, none
otherwise. -/
def gpx2pdf.waypointOps (self : gpx2pdf) (page : PdfPage) (fontMetrics : PdfFontMetrics)
    (wp : waypoint) : List PainterOp :=
  match self.convertCoordsToPixels wp.lat wp.lon (some 0) (some 0) with
  | (g2pErr.SUCCESS, some px, some py) =>
    if self.placeable page wp then
      markerOps self.nameFontSize page.height (px * (page.width / self.xPixels))
        (py * (page.height / self.yPixels)) (fontMetrics.StringWidth self.nameFontSize wp.name)
        wp.name
    else []
  | _ => []

/-- The painter calls that set up the page before the loop of `savePdf`. -/
def setupOps (nameFontSize : ℚ) : List PainterOp :=
  [PainterOp.SetPage, PainterOp.SetFont nameFontSize, PainterOp.SetStrokingColor 0 0 0,
    PainterOp.SetStrokeWidth 1]

/-! ## Double arithmetic

The definitions above read a `double` as an exact rational.  The definitions of this
section read the same source lines in IEEE 754 binary64 arithmetic: every arithmetic
operation is followed by `fl`, the rounding of its exact result to the nearest number
with a significand of 53 bits, ties going to the even significand.  The exponent range
is not bounded (no overflow, no subnormal numbers); a division by zero gives a
non-finite value as before. -/

/-- The number of halvings that bring `n` below 2, at most `fuel` of them: the floor of
the binary logarithm of `n` when `fuel` is at least that. -/
def log2Aux : Nat → Nat → Nat
  | 0, _ => 0
  | fuel + 1, n => if n < 2 then 0 else log2Aux fuel (n / 2) + 1

/-- The floor of the binary logarithm of `n / d`, for positive `n` and `d`. -/
def floorLog2 (n d : Nat) : Int :=
  let k : Int := (log2Aux n n : Int) - (log2Aux d d : Int)
  if 0 ≤ k then (if d * 2 ^ k.toNat ≤ n then k else k - 1)
  else (if d ≤ n * 2 ^ (-k).toNat then k else k - 1)

/-- The integer nearest to `n / d`, the even one of the two when `n / d` lies half way. -/
def roundHalfEven (n d : Nat) : Nat :=
  if 2 * (n % d) < d then n / d
  else if d < 2 * (n % d) then n / d + 1
  else if (n / d) % 2 = 0 then n / d else n / d + 1

/-- The significand `m` and the exponent `e` of the double nearest to `n / d` (positive
`n` and `d`): `e` is the binary exponent of `n / d` less 52, so that `n / d / 2 ^ e` lies
between `2 ^ 52` and `2 ^ 53`, and `m` is that number rounded to an integer. -/
def flParts (n d : Nat) : Nat × Int :=
  let e := floorLog2 n d - 52
  (if 0 ≤ e then roundHalfEven n (d * 2 ^ e.toNat) else roundHalfEven (n * 2 ^ (-e).toNat) d, e)

/-- Rounding to the nearest binary64 number, ties to even. -/
def fl (q : ℚ) : ℚ :=
  if q = 0 then 0
  else (if 0 < q then 1 else -1) * ((flParts q.num.natAbs q.den).1 : ℚ)
    * (2 : ℚ) ^ (flParts q.num.natAbs q.den).2

/-- Division of two doubles in double arithmetic: non-finite (`none`) when the divisor
is zero. -/
def fdivFl (a b : ℚ) : Option ℚ :=
  if b = 0 then none else some (fl (a / b))

/-- Product of a finite double and a possibly non-finite one in double arithmetic. -/
def fmulFl (a : ℚ) (b : Option ℚ) : Option ℚ :=
  b.map (fun d => fl (a * d))

/-- The method `convertCoordsToPixels`, src/gpx2pdf.cpp lines 384-407, in double
arithmetic.  Arguments and result as for `convertCoordsToPixels`. -/
def gpx2pdf.convertCoordsToPixelsFl (self : gpx2pdf) (lat lon : ℚ) (x y : Option ℚ) :
    g2pErr × Option ℚ × Option ℚ :=
  match self.coordTF with
  | none => (g2pErr.ERROR, x, y)
  | some coordTF =>
    let x_i := lat
    let y_i := lon
    match coordTF.Transform x_i y_i with
    | none => (g2pErr.INVALID_ARGUMENT, x, y)
    | some (x_i, y_i) =>
      let determinant := fdivFl 1 (fl (fl (self.adfGeoTransform 1 * self.adfGeoTransform 5)
        - fl (self.adfGeoTransform 2 * self.adfGeoTransform 4)))
      let x := fmulFl (fl (fl (fl (x_i - self.adfGeoTransform 0) * self.adfGeoTransform 5)
        + fl (fl (fl (y_i - self.adfGeoTransform 3) * -1) * self.adfGeoTransform 4))) determinant
      let y := fmulFl (fl (fl (fl (fl (x_i - self.adfGeoTransform 0) * -1)
          * self.adfGeoTransform 2)
        + fl (fl (y_i - self.adfGeoTransform 3) * self.adfGeoTransform 1))) determinant
      (g2pErr.SUCCESS, x, y)

/-- The conversion of pixels to PDF units, src/gpx2pdf.cpp lines 241-242, in double
arithmetic: the product `x * pageSize` is rounded, then divided by the pixel count. -/
def toPdfUnitsFl (x : Option ℚ) (pageSize : ℚ) (pixels : Int) : Option ℚ :=
  x.bind (fun x => fdivFl (fl (x * pageSize)) (pixels : ℚ))

/-- The painter calls that draw one waypoint at `(x, y)`, src/gpx2pdf.cpp lines 250-269,
their arguments computed in double arithmetic. -/
def markerOpsFl (nameFontSize pageHeight x y textWidth : ℚ) (name : String) : List PainterOp :=
  [ PainterOp.SetColor 1 1 0,
    PainterOp.Rectangle (fl (fl (x - fl (textWidth / 2)) - 2)) (fl (fl (pageHeight - y) + 6))
      (fl (textWidth + 4)) (fl (nameFontSize + 3)),
    PainterOp.FillAndStroke,
    PainterOp.DrawLine x (fl (fl (pageHeight - y) + 6)) x (fl (pageHeight - y)),
    PainterOp.SetColor 1 1 1,
    PainterOp.Circle x (fl (pageHeight - y)) 3,
    PainterOp.FillAndStroke,
    PainterOp.DrawLine x (fl (fl (pageHeight - y) + 2)) x (fl (fl (pageHeight - y) - 2)),
    PainterOp.DrawLine (fl (x + 2)) (fl (pageHeight - y)) (fl (x - 2)) (fl (pageHeight - y)),
    PainterOp.SetColor 0 0 0,
    PainterOp.DrawMultiLineText (fl (fl (x - fl (textWidth / 2)) - 2))
      (fl (fl (pageHeight - y) + 6)) (fl (textWidth + 4)) (fl (nameFontSize + 2)) name
      EPdfAlignment.Center EPdfVerticalAlignment.Center ]

/-- One turn of the loop over the waypoints, src/gpx2pdf.cpp lines 235-275, in double
arithmetic; `none` when a painter call throws. -/
def gpx2pdf.savePdfStepFl (self : gpx2pdf) (doc : PdfMemDocument) (page : PdfPage)
    (fontMetrics : PdfFontMetrics) (s : LoopState) (wp : waypoint) : Option LoopState :=
  let pageHeight := page.height
  let pageWidth := page.width
  match self.convertCoordsToPixelsFl wp.lat wp.lon (some 0) (some 0) with
  | (g2pErr.SUCCESS, x, y) =>
    match toPdfUnitsFl x pageWidth self.xPixels, toPdfUnitsFl y pageHeight self.yPixels with
    | some x, some y =>
      if onPage x y pageWidth pageHeight then
        let textWidth := fontMetrics.StringWidth self.nameFontSize wp.name
        match paint doc s.ops
            (markerOpsFl self.nameFontSize pageHeight x y textWidth wp.name) with
        | some ops => some { s with ops := ops, waypointCount := s.waypointCount + 1 }
        | none => none
      else some s
    | _, _ => some s
  | _ => some { s with convertError := true }

/-- The loop over the stored waypoints, src/gpx2pdf.cpp lines 233-277, in double
arithmetic. -/
def gpx2pdf.savePdfLoopFl (self : gpx2pdf) (doc : PdfMemDocument) (page : PdfPage)
    (fontMetrics : PdfFontMetrics) : LoopState → List waypoint → Option LoopState
  | s, [] => some s
  | s, wp :: rest =>
    match self.savePdfStepFl doc page fontMetrics s wp with
    | some s => self.savePdfLoopFl doc page fontMetrics s rest
    | none => none

/-- The painting block, src/gpx2pdf.cpp lines 198-281, with the loop in double
arithmetic. -/
def gpx2pdf.savePdfPaintFl (self : gpx2pdf) (docPodofo : PdfMemDocument) (pagePodofo : PdfPage) :
    Option LoopState :=
  match paint docPodofo [] [PainterOp.SetPage] with
  | none => none
  | some ops =>
    match docPodofo.CreateFont "Helvetica" with
    | .ok (some pFont) =>
      match paint docPodofo ops [PainterOp.SetFont self.nameFontSize] with
      | none => none
      | some ops =>
        match pFont.GetFontMetrics with
        | none => none
        | some fontMetrics =>
          match paint docPodofo ops
              [PainterOp.SetStrokingColor 0 0 0, PainterOp.SetStrokeWidth 1] with
          | none => none
          | some ops =>
            match self.savePdfLoopFl docPodofo pagePodofo fontMetrics
                { ops := ops, waypointCount := 0, convertError := false } self.waypoints with
            | none => none
            | some s =>
              match paint docPodofo s.ops [PainterOp.FinishPage] with
              | none => none
              | some ops => some { s with ops := ops }
    | _ => none

/-- The method `savePdf`, src/gpx2pdf.cpp lines 130-313, with the loop in double
arithmetic. -/
def gpx2pdf.savePdfFl (self : gpx2pdf) (w : World) : g2pErr × PdfEffects :=
  let docPodofo := w.pdf self.pdfFileIn
  match self.savePdfLoad docPodofo with
  | some err => (err, PdfEffects.nothing)
  | none =>
    match self.savePdfPage docPodofo with
    | .error err => (err, PdfEffects.nothing)
    | .ok pagePodofo =>
      match self.savePdfPaintFl docPodofo pagePodofo with
      | none => (g2pErr.ERROR, PdfEffects.nothing)
      | some s =>
        let painted : PdfEffects :=
          { ops := s.ops, waypointCount := s.waypointCount, convertError := s.convertError,
            writeCalled := false, written := false }
        if s.waypointCount ≤ 0 then (g2pErr.INVALID_ARGUMENT, painted)
        else if docPodofo.Write self.pdfFileOut then
          (g2pErr.SUCCESS, { painted with writeCalled := true, written := true })
        else (g2pErr.ERROR, { painted with writeCalled := true })

/-- A waypoint is converted successfully and lies on the page, as the code decides it in
double arithmetic: the conversion returns `SUCCESS` with a finite pixel `(px, py)`, the
pixel counts are not zero, and `0 ≤ unitX ≤ pageWidth`, `0 ≤ unitY ≤ pageHeight` for
`unitX = fl (fl (px * pageWidth) / xPixels)` and `unitY = fl (fl (py * pageHeight) / yPixels)`. -/
def gpx2pdf.placeableFl (self : gpx2pdf) (page : PdfPage) (wp : waypoint) : Bool :=
  match self.convertCoordsToPixelsFl wp.lat wp.lon (some 0) (some 0) with
  | (g2pErr.SUCCESS, some px, some py) =>
    decide (self.xPixels ≠ 0 ∧ self.yPixels ≠ 0 ∧
      0 ≤ fl (fl (px * page.width) / self.xPixels) ∧
      fl (fl (px * page.width) / self.xPixels) ≤ page.width ∧
      0 ≤ fl (fl (py * page.height) / self.yPixels) ∧
      fl (fl (py * page.height) / self.yPixels) ≤ page.height)
  | _ => false

/-- The coordinate conversion of a waypoint in double arithmetic does not return
`SUCCESS`. -/
def gpx2pdf.convertFailsFl (self : gpx2pdf) (wp : waypoint) : Bool :=
  decide ((self.convertCoordsToPixelsFl wp.lat wp.lon (some 0) (some 0)).1 ≠ g2pErr.SUCCESS)

/-- The painter calls that belong to a waypoint in double arithmetic: those of its marker
when it is placeable, none otherwise. -/
def gpx2pdf.waypointOpsFl (self : gpx2pdf) (page : PdfPage) (fontMetrics : PdfFontMetrics)
    (wp : waypoint) : List PainterOp :=
  match self.convertCoordsToPixelsFl wp.lat wp.lon (some 0) (some 0) with
  | (g2pErr.SUCCESS, some px, some py) =>
    if self.placeableFl page wp then
      markerOpsFl self.nameFontSize page.height (fl (fl (px * page.width) / self.xPixels))
        (fl (fl (py * page.height) / self.yPixels))
        (fontMetrics.StringWidth self.nameFontSize wp.name) wp.name
    else []
  | _ => []

/-! ## Example data -/

/-- A coordinate transformation that succeeds on every point and leaves it unchanged. -/
def identityTF : OGRCoordinateTransformation :=
  { Transform := fun x y => some (x, y) }

/-- A fresh instance to which the affine `g` and the transformation `tf` were bound. -/
def boundInstance (g : Fin 6 → ℚ) (tf : OGRCoordinateTransformation) : gpx2pdf :=
  { gpx2pdf.new "in.gpx" "in.pdf" "out.pdf" g with coordTF := some tf }

/-- The array `[c0, c1, c2, c3, c4, c5]`. -/
def affine (c0 c1 c2 c3 c4 c5 : ℚ) : Fin 6 → ℚ := ![c0, c1, c2, c3, c4, c5]

/-- A sheared affine with determinant 1: `Xp = P + L`, `Yp = L`. -/
def shearAffine : Fin 6 → ℚ := affine 0 1 1 0 0 1

/-- The north-up affine of the example scenario of the specification. -/
def utmAffine : Fin 6 → ℚ := affine 500000 10 0 4500000 0 (-10)

/-- A transformation for the examples: it fails on a latitude outside `[-90, 90]` and
otherwise maps `(lat, lon)` linearly, `(40, -75)` going to `(500500, 4499500)`. -/
def exampleTF : OGRCoordinateTransformation :=
  { Transform := fun lat lon =>
      if lat < -90 ∨ 90 < lat then none
      else some (500500 + (lon + 75) * 1000, 4499500 + (lat - 40) * 1000) }

/-- Font metrics for the examples: every character is half the font size wide. -/
def exampleMetrics : PdfFontMetrics :=
  { StringWidth := fun size text => size * (text.length : ℚ) / 2 }

/-- A PDF document for the examples: one page of 200 by 100 units, no call fails. -/
def examplePdf : PdfMemDocument :=
  { Load := none
    SetPassword := fun _ => none
    GetPageCount := 1
    GetPage := fun _ => .ok (some { width := 200, height := 100 })
    CreateFont := fun _ => .ok (some { GetFontMetrics := some exampleMetrics })
    throws := fun _ => false
    Write := fun _ => true }

/-- An instance for the examples with the affine `utmAffine`, the transformation
`exampleTF` and a raster of 100 by 100 pixels, holding the given waypoints. -/
def exampleInstance (waypoints : List waypoint) : gpx2pdf :=
  { boundInstance utmAffine exampleTF with
    pdfSRS := some { wkt := "EPSG:32618" }, xPixels := 100, yPixels := 100,
    waypoints := waypoints }

/-- The collaborators for the examples: the GPX file holds the given `wpt` elements,
the PDF file is georeferenced with `utmAffine` on a raster of 100 by 100 pixels and has
a spatial reference, every OGR call succeeds, and the PDF document is `examplePdf`. -/
def exampleWorld (xmlWaypoints : List XmlWaypoint) : World :=
  { gpx := fun _ => .parsed xmlWaypoints
    GDALOpen := fun _ _ => some
      { GetGeoTransform := (true, utmAffine)
        GetRasterXSize := 100
        GetRasterYSize := 100
        GetSpatialRef := some { wkt := "EPSG:32618" } }
    Clone := fun spatialRef => some spatialRef
    OGRCreateCoordinateTransformation := fun _ _ => some exampleTF
    pdf := fun _ => examplePdf }

/-- A waypoint on the page of the examples. -/
def wpOnPage : waypoint := { lat := 40, lon := -75, name := "A" }

/-- A waypoint on which `exampleTF` fails. -/
def wpBad : waypoint := { lat := 100, lon := 0, name := "B" }

/-- A waypoint that `exampleTF` converts to a pixel above the page of the examples. -/
def wpOffPage : waypoint := { lat := 41, lon := -75, name := "C" }

/-- A fresh instance as the constructor leaves it. -/
def freshInstance : gpx2pdf :=
  gpx2pdf.new "in.gpx" "in.pdf" "out.pdf" (affine 0 0 0 0 0 0)

/-- An affine with determinant 0: the pixel height is 0. -/
def degenerateAffine : Fin 6 → ℚ := affine 500000 10 0 4500000 0 0

/-- The collaborators of `exampleWorld`, but the PDF file carries `degenerateAffine`. -/
def degenerateWorld (xmlWaypoints : List XmlWaypoint) : World :=
  { exampleWorld xmlWaypoints with
    GDALOpen := fun _ _ => some
      { GetGeoTransform := (true, degenerateAffine)
        GetRasterXSize := 100
        GetRasterYSize := 100
        GetSpatialRef := some { wkt := "EPSG:32618" } } }

/-- The collaborators of `exampleWorld`, but cloning the spatial reference fails. -/
def cloneFailsWorld (xmlWaypoints : List XmlWaypoint) : World :=
  { exampleWorld xmlWaypoints with Clone := fun _ => none }

/-- A `wpt` element with a name at `(40, -75)`. -/
def xmlOnPage : XmlWaypoint :=
  { lat := some 40, lon := some (-75), name := some "A", cacheName := none,
    gsakSmartName := none }

/-! ## The run as a sequence of steps (src/gpx2pdf.h lines 48-56) -/

/-- The three steps that the documentation of `doConversion` names. -/
inductive Step
  | loadGpx
  | getGeospatialData
  | savePdf
  deriving DecidableEq, Repr

/-- A call of one step on an instance: the code returned, the instance after the call
and what the call left in the PDF document (`PdfEffects.nothing` for the first two
steps, which do not touch it). -/
def gpx2pdf.callStep (self : gpx2pdf) (w : World) : Step → Run
  | .loadGpx =>
    { result := (self.loadGpx w).1, self := (self.loadGpx w).2, pdf := PdfEffects.nothing }
  | .getGeospatialData =>
    { result := (self.getGeospatialData w).1, self := (self.getGeospatialData w).2,
      pdf := PdfEffects.nothing }
  | .savePdf =>
    { result := (self.savePdf w).1, self := self, pdf := (self.savePdf w).2 }

/-- The run in the words of the documentation and of the state machine of the
specification: the steps are called in the given order, each on the instance the step
before left; the first step that does not return `SUCCESS` ends the run with its code
and no later step is called; when all succeed the run ends with `SUCCESS`.  The result
holds the outcome of the run and the list of the steps that were called. -/
def gpx2pdf.callInOrder (self : gpx2pdf) (w : World) : List Step → Run × List Step
  | [] => ({ result := g2pErr.SUCCESS, self := self, pdf := PdfEffects.nothing }, [])
  | [step] => (self.callStep w step, [step])
  | step :: next :: rest =>
    if (self.callStep w step).result ≠ g2pErr.SUCCESS then (self.callStep w step, [step])
    else
      (((self.callStep w step).self.callInOrder w (next :: rest)).1,
        step :: ((self.callStep w step).self.callInOrder w (next :: rest)).2)

/-! ## The name of a waypoint in the words of the documentation (src/gpx2pdf.h lines 111-130) -/

/-- The name picked for a waypoint with default name `d`, geocache name `c` and GSAK
smart name `s`: the smart name when its use is set and it is present, otherwise the
geocache name when its use is set and it is present, otherwise the default name. -/
def pickName (useGeocacheName useGsakSmartName : Bool) (d : String) (c s : Option String) :
    String :=
  match useGsakSmartName, s with
  | true, some smartName => smartName
  | _, _ =>
    match useGeocacheName, c with
    | true, some cacheName => cacheName
    | _, _ => d

/-- The name cut to the maximum length: its first `maxNameLength` characters when
`maxNameLength` is not negative, the name itself when it is negative. -/
def truncName (maxNameLength : Int) (pick : String) : String :=
  if 0 ≤ maxNameLength then String.mk (pick.data.take maxNameLength.toNat) else pick

/-- The name cut to the maximum length counted in UTF-16 code units: the text of the
first `maxNameLength` code units of the name when `maxNameLength` is not negative, the
name itself when it is negative. -/
def truncUnits (maxNameLength : Int) (pick : String) : String :=
  if 0 ≤ maxNameLength then
    String.mk (decodeUtf16 ((pick.data.flatMap utf16).take maxNameLength.toNat))
  else pick

/-- The waypoint that a `wpt` element adds to the stored waypoints: none when the
latitude, the longitude or the name is missing, otherwise the waypoint at the
coordinates, named by the picked name cut to the maximum length in code units. -/
def gpx2pdf.storedWaypoint (self : gpx2pdf) (xmlWaypoint : XmlWaypoint) : Option waypoint :=
  match xmlWaypoint.lat, xmlWaypoint.lon, xmlWaypoint.name with
  | some lat, some lon, some d =>
    some { lat := lat, lon := lon,
           name := truncUnits self.maxNameLength
             (pickName self.useGeocacheName self.useGsakSmartName d xmlWaypoint.cacheName
               xmlWaypoint.gsakSmartName) }
  | _, _, _ => none

/-! ## Geometry of a marker -/

/-- A rectangle given by its lower-left corner, its width and its height, in PDF units
(the y axis points up). -/
structure Rect where
  x : ℚ
  y : ℚ
  width : ℚ
  height : ℚ
  deriving DecidableEq, Repr

/-- The centre of a rectangle. -/
def Rect.centre (r : Rect) : ℚ × ℚ :=
  (r.x + r.width / 2, r.y + r.height / 2)

/-- The rectangle a painter call works in: the rectangle drawn by `Rectangle`, and the
box in which `DrawMultiLineText` lays out its text (with both alignments `Center` the
text is centred in that box). -/
def PainterOp.box : PainterOp → Option Rect
  | .Rectangle x y width height => some { x := x, y := y, width := width, height := height }
  | .DrawMultiLineText x y width height _ _ _ =>
    some { x := x, y := y, width := width, height := height }
  | _ => none

/-- An affine whose determinant 49 has no exact reciprocal among the doubles. -/
def reciprocalAffine : Fin 6 → ℚ := affine 0 49 0 0 0 1

/-- The affine of a raster whose pixels are the world units: determinant 1. -/
def unitAffine : Fin 6 → ℚ := affine 0 1 0 0 0 1

/-- The double nearest to 595.276, the width of an A4 page in PDF units. -/
def a4Width : ℚ := 5236103069887889 / 8796093022208

/-- The double nearest to 841.89, the height of an A4 page in PDF units. -/
def a4Height : ℚ := 7405342754466693 / 8796093022208

/-- A PDF document with one A4 page, no call fails. -/
def a4Pdf : PdfMemDocument :=
  { examplePdf with GetPage := fun _ => .ok (some { width := a4Width, height := a4Height }) }

/-- The collaborators of `exampleWorld` with the PDF document `a4Pdf`. -/
def a4World : World :=
  { exampleWorld [] with pdf := fun _ => a4Pdf }

/-- A waypoint whose world point `(117, 50)` is a pixel of the right edge of a raster
117 pixels wide. -/
def wpEdge : waypoint := { lat := 117, lon := 50, name := "E" }

/-- An instance with the affine `unitAffine`, the identity transformation and a raster of
117 by 100 pixels, holding the waypoint `wpEdge`. -/
def edgeInstance : gpx2pdf :=
  { boundInstance unitAffine identityTF with
    xPixels := 117, yPixels := 100, waypoints := [wpEdge] }

/-- A `wpt` element at `(40, -75)` whose name starts with a character outside the Basic
Multilingual Plane (U+1F600, two UTF-16 code units). -/
def xmlSmiley : XmlWaypoint :=
  { lat := some 40, lon := some (-75), name := some "😀bc", cacheName := none,
    gsakSmartName := none }

/-- A fresh instance on which `setMaxNameLength(1)` was called. -/
def shortNameInstance : gpx2pdf :=
  { freshInstance with maxNameLength := 1 }

/-! ## Theorems -/

@[simp] theorem affine_0 (c0 c1 c2 c3 c4 c5 : ℚ) : affine c0 c1 c2 c3 c4 c5 0 = c0 := rfl

@[simp] theorem affine_1 (c0 c1 c2 c3 c4 c5 : ℚ) : affine c0 c1 c2 c3 c4 c5 1 = c1 := rfl

@[simp] theorem affine_2 (c0 c1 c2 c3 c4 c5 : ℚ) : affine c0 c1 c2 c3 c4 c5 2 = c2 := rfl

@[simp] theorem affine_3 (c0 c1 c2 c3 c4 c5 : ℚ) : affine c0 c1 c2 c3 c4 c5 3 = c3 := rfl

@[simp] theorem affine_4 (c0 c1 c2 c3 c4 c5 : ℚ) : affine c0 c1 c2 c3 c4 c5 4 = c4 := rfl

@[simp] theorem affine_5 (c0 c1 c2 c3 c4 c5 : ℚ) : affine c0 c1 c2 c3 c4 c5 5 = c5 := rfl

/-- C1 (the code departs from the claim): with the sheared affine `[0,1,1,0,0,1]`
(determinant 1) and the world point `(1, 1)`, `convertCoordsToPixels` succeeds with the
pixel `(1, 0)`, and the forward affine takes that pixel to `(1, 0)`, not back to
`(1, 1)`; the pixel `(0, 1)` is the one the forward affine takes to `(1, 1)`. -/
theorem C1_round_trip_broken_on_shear :
    shearAffine 1 * shearAffine 5 - shearAffine 2 * shearAffine 4 ≠ 0 ∧
    (boundInstance shearAffine identityTF).convertCoordsToPixels 1 1 (some 0) (some 0)
      = (g2pErr.SUCCESS, some 1, some 0) ∧
    affineForward shearAffine 1 0 = (1, 0) ∧
    affineForward shearAffine 1 0 ≠ (1, 1) ∧
    affineForward shearAffine 0 1 = (1, 1) := by
  refine ⟨?_, ?_, ?_, ?_, ?_⟩ <;>
    norm_num [shearAffine, boundInstance, identityTF, gpx2pdf.new, gpx2pdf.convertCoordsToPixels,
      affineForward, fdiv, fmul]

/-- C3: `convertCoordsToPixels` returns `ERROR` exactly when no transformation is
bound, `INVALID_ARGUMENT` exactly when a transformation is bound and fails on the point,
and `SUCCESS` in every other case (a transformation is bound and succeeds on the point);
the two error codes are different, also as numbers. -/
theorem C3_error_codes (self : gpx2pdf) (lat lon : ℚ) (x y : Option ℚ) :
    ((self.convertCoordsToPixels lat lon x y).1 = g2pErr.ERROR ↔ self.coordTF = none) ∧
    ((self.convertCoordsToPixels lat lon x y).1 = g2pErr.INVALID_ARGUMENT ↔
      ∃ tf, self.coordTF = some tf ∧ tf.Transform lat lon = none) ∧
    ((self.convertCoordsToPixels lat lon x y).1 = g2pErr.SUCCESS ↔
      ¬ self.coordTF = none ∧ ¬ ∃ tf, self.coordTF = some tf ∧ tf.Transform lat lon = none) ∧
    g2pErr.ERROR ≠ g2pErr.INVALID_ARGUMENT ∧
    g2pErr.ERROR.toNat ≠ g2pErr.INVALID_ARGUMENT.toNat := by
  unfold gpx2pdf.convertCoordsToPixels
  cases hc : self.coordTF with
  | none => simp [g2pErr.toNat]
  | some tf =>
    cases ht : tf.Transform lat lon with
    | none => simp [ht, g2pErr.toNat]
    | some p => simp [ht, g2pErr.toNat]

theorem fdiv_of_ne (a b : ℚ) (h : b ≠ 0) : fdiv a b = some (a / b) := by
  simp [fdiv, h]

theorem paint_of_no_throw (doc : PdfMemDocument) (h : ∀ op, doc.throws op = false)
    (done ops : List PainterOp) : paint doc done ops = some (done ++ ops) := by
  simp [paint, h]

/-- The turn of the loop for a waypoint that was converted to the finite pixel
`(px, py)`, with nonzero pixel counts. -/
theorem savePdfStep_of_pixels (self : gpx2pdf) (doc : PdfMemDocument) (page : PdfPage)
    (fontMetrics : PdfFontMetrics) (s : LoopState) (wp : waypoint) (px py : ℚ)
    (hconv : self.convertCoordsToPixels wp.lat wp.lon (some 0) (some 0)
      = (g2pErr.SUCCESS, some px, some py))
    (hx : self.xPixels ≠ 0) (hy : self.yPixels ≠ 0) :
    self.savePdfStep doc page fontMetrics s wp =
      if onPage (px * (page.width / self.xPixels)) (py * (page.height / self.yPixels))
          page.width page.height then
        (paint doc s.ops (markerOps self.nameFontSize page.height
          (px * (page.width / self.xPixels)) (py * (page.height / self.yPixels))
          (fontMetrics.StringWidth self.nameFontSize wp.name) wp.name)).map
          (fun ops => { s with ops := ops, waypointCount := s.waypointCount + 1 })
      else some s := by
  have hx' : (self.xPixels : ℚ) ≠ 0 := Int.cast_ne_zero.mpr hx
  have hy' : (self.yPixels : ℚ) ≠ 0 := Int.cast_ne_zero.mpr hy
  simp only [gpx2pdf.savePdfStep, hconv, toPdfUnits, Option.some_bind, fdiv_of_ne _ _ hx',
    fdiv_of_ne _ _ hy', mul_div_assoc]
  split
  · cases paint doc s.ops _ <;> rfl
  · rfl

theorem exampleInstance_convert (waypoints : List waypoint) :
    (exampleInstance waypoints).convertCoordsToPixels 40 (-75) (some 0) (some 0)
      = (g2pErr.SUCCESS, some 50, some 50) := by
  norm_num [exampleInstance, boundInstance, gpx2pdf.new, utmAffine, exampleTF,
    gpx2pdf.convertCoordsToPixels, fdiv, fmul]

theorem paint_nil (doc : PdfMemDocument) (done : List PainterOp) :
    paint doc done [] = some done := by
  simp [paint]

theorem paint_append (doc : PdfMemDocument) (done a b : List PainterOp) :
    paint doc done (a ++ b) = (paint doc done a).bind (fun d => paint doc d b) := by
  unfold paint
  by_cases ha : a.any doc.throws = true
  · simp [ha]
  · by_cases hb : b.any doc.throws = true
    · simp [ha, hb]
    · simp [ha, hb]

/-- One turn of the loop, read through `waypointOps`, `placeable` and `convertFails`. -/
theorem savePdfStep_eq (self : gpx2pdf) (doc : PdfMemDocument) (page : PdfPage)
    (fontMetrics : PdfFontMetrics) (s : LoopState) (wp : waypoint) :
    self.savePdfStep doc page fontMetrics s wp =
      (paint doc s.ops (self.waypointOps page fontMetrics wp)).map (fun ops =>
        { ops := ops,
          waypointCount := s.waypointCount + (if self.placeable page wp then 1 else 0),
          convertError := s.convertError || self.convertFails wp }) := by
  rcases hconv : self.convertCoordsToPixels wp.lat wp.lon (some 0) (some 0) with ⟨code, x, y⟩
  cases code <;> cases x <;> cases y <;>
    simp [gpx2pdf.savePdfStep, gpx2pdf.waypointOps, gpx2pdf.placeable, gpx2pdf.convertFails,
      hconv, paint_nil, toPdfUnits]
  rename_i px py
  by_cases hx : self.xPixels = 0
  · simp [hx, fdiv, paint_nil]
  · by_cases hy : self.yPixels = 0
    · simp [hy, fdiv, paint_nil]
    · have hx' : (self.xPixels : ℚ) ≠ 0 := Int.cast_ne_zero.mpr hx
      have hy' : (self.yPixels : ℚ) ≠ 0 := Int.cast_ne_zero.mpr hy
      simp only [fdiv_of_ne _ _ hx', fdiv_of_ne _ _ hy', mul_div_assoc, onPage]
      by_cases hon : 0 ≤ px * (page.width / self.xPixels) ∧
          px * (page.width / self.xPixels) ≤ page.width ∧
          0 ≤ py * (page.height / self.yPixels) ∧
          py * (page.height / self.yPixels) ≤ page.height
      · simp [hx, hy, hon]
        cases paint doc s.ops _ <;> rfl
      · simp [hx, hy, hon, paint_nil]

/-- The loop over a list of waypoints, read through `waypointOps`, `placeable` and
`convertFails`. -/
theorem savePdfLoop_eq (self : gpx2pdf) (doc : PdfMemDocument) (page : PdfPage)
    (fontMetrics : PdfFontMetrics) (wps : List waypoint) (s : LoopState) :
    self.savePdfLoop doc page fontMetrics s wps =
      (paint doc s.ops (wps.flatMap (self.waypointOps page fontMetrics))).map (fun ops =>
        { ops := ops,
          waypointCount := s.waypointCount + (wps.countP (self.placeable page) : Nat),
          convertError := s.convertError || wps.any self.convertFails }) := by
  induction wps generalizing s with
  | nil => simp [gpx2pdf.savePdfLoop, paint_nil]
  | cons wp rest ih =>
    simp only [gpx2pdf.savePdfLoop, savePdfStep_eq, List.flatMap_cons, paint_append]
    cases hp : paint doc s.ops (self.waypointOps page fontMetrics wp) with
    | none => simp
    | some ops =>
      simp only [Option.map_some', Option.some_bind, ih, List.countP_cons, List.any_cons]
      cases paint doc ops (rest.flatMap (self.waypointOps page fontMetrics)) with
      | none => simp
      | some ops2 =>
        simp only [Option.map_some', Option.some.injEq, LoopState.mk.injEq, true_and,
          Bool.or_assoc, and_true]
        by_cases hpl : self.placeable page wp = true
        · simp [hpl]; ring
        · simp [hpl]

/-- The painting block when the font and its metrics are obtained and no painter call
throws: the set-up calls, the calls of the waypoints in their order, `FinishPage`. -/
theorem savePdfPaint_eq (self : gpx2pdf) (doc : PdfMemDocument) (page : PdfPage)
    (pFont : PdfFont) (fontMetrics : PdfFontMetrics)
    (hfont : doc.CreateFont "Helvetica" = .ok (some pFont))
    (hmetrics : pFont.GetFontMetrics = some fontMetrics)
    (hpaint : ∀ op, doc.throws op = false) :
    self.savePdfPaint doc page = some
      { ops := setupOps self.nameFontSize
          ++ self.waypoints.flatMap (self.waypointOps page fontMetrics)
          ++ [PainterOp.FinishPage],
        waypointCount := (self.waypoints.countP (self.placeable page) : Nat),
        convertError := self.waypoints.any self.convertFails } := by
  simp [gpx2pdf.savePdfPaint, hfont, hmetrics, paint_of_no_throw doc hpaint, savePdfLoop_eq,
    setupOps]

/-- The result of `savePdf` once the document is loaded, the page and the font are
obtained and no painter call throws. -/
theorem savePdf_eq (self : gpx2pdf) (w : World) (page : PdfPage)
    (pFont : PdfFont) (fontMetrics : PdfFontMetrics)
    (hload : self.savePdfLoad (w.pdf self.pdfFileIn) = none)
    (hpage : self.savePdfPage (w.pdf self.pdfFileIn) = .ok page)
    (hfont : (w.pdf self.pdfFileIn).CreateFont "Helvetica" = .ok (some pFont))
    (hmetrics : pFont.GetFontMetrics = some fontMetrics)
    (hpaint : ∀ op, (w.pdf self.pdfFileIn).throws op = false) :
    self.savePdf w =
      if self.waypoints.countP (self.placeable page) = 0 then
        (g2pErr.INVALID_ARGUMENT,
          { ops := setupOps self.nameFontSize
              ++ self.waypoints.flatMap (self.waypointOps page fontMetrics)
              ++ [PainterOp.FinishPage],
            waypointCount := (self.waypoints.countP (self.placeable page) : Nat),
            convertError := self.waypoints.any self.convertFails,
            writeCalled := false, written := false })
      else
        (if (w.pdf self.pdfFileIn).Write self.pdfFileOut then g2pErr.SUCCESS else g2pErr.ERROR,
          { ops := setupOps self.nameFontSize
              ++ self.waypoints.flatMap (self.waypointOps page fontMetrics)
              ++ [PainterOp.FinishPage],
            waypointCount := (self.waypoints.countP (self.placeable page) : Nat),
            convertError := self.waypoints.any self.convertFails,
            writeCalled := true,
            written := (w.pdf self.pdfFileIn).Write self.pdfFileOut }) := by
  simp only [gpx2pdf.savePdf, hload, hpage,
    savePdfPaint_eq self _ page pFont fontMetrics hfont hmetrics hpaint]
  by_cases h0 : self.waypoints.countP (self.placeable page) = 0
  · simp [h0]
  · have hpos : ¬ ((self.waypoints.countP (self.placeable page) : Nat) : Int) ≤ 0 := by
      have : 0 < self.waypoints.countP (self.placeable page) := Nat.pos_of_ne_zero h0
      omega
    simp only [if_neg h0, if_neg hpos]
    cases (w.pdf self.pdfFileIn).Write self.pdfFileOut <;> simp

/-- C5: when the document is loaded, the page, the font and its metrics are obtained and
no painter call throws, the loop of `savePdf` goes through all stored waypoints and ends
in a state `s`; `savePdf` returns `INVALID_ARGUMENT` without calling `Write` exactly when
`s.waypointCount` (the number of waypoints drawn) is 0, and then no file is written; when
`s.waypointCount > 0` it goes on to call `Write`. -/
theorem C5_zero_placed_no_write (self : gpx2pdf) (w : World) (page : PdfPage)
    (pFont : PdfFont) (fontMetrics : PdfFontMetrics)
    (hload : self.savePdfLoad (w.pdf self.pdfFileIn) = none)
    (hpage : self.savePdfPage (w.pdf self.pdfFileIn) = .ok page)
    (hfont : (w.pdf self.pdfFileIn).CreateFont "Helvetica" = .ok (some pFont))
    (hmetrics : pFont.GetFontMetrics = some fontMetrics)
    (hpaint : ∀ op, (w.pdf self.pdfFileIn).throws op = false) :
    ∃ s : LoopState,
      self.savePdfLoop (w.pdf self.pdfFileIn) page fontMetrics
        { ops := setupOps self.nameFontSize, waypointCount := 0, convertError := false }
        self.waypoints = some s ∧
      0 ≤ s.waypointCount ∧
      (self.savePdf w).2.waypointCount = s.waypointCount ∧
      (((self.savePdf w).1 = g2pErr.INVALID_ARGUMENT ∧ (self.savePdf w).2.writeCalled = false)
        ↔ s.waypointCount = 0) ∧
      (s.waypointCount = 0 → (self.savePdf w).2.written = false) ∧
      (0 < s.waypointCount →
        (self.savePdf w).2.writeCalled = true ∧ (self.savePdf w).1 ≠ g2pErr.INVALID_ARGUMENT) := by
  rw [savePdf_eq self w page pFont fontMetrics hload hpage hfont hmetrics hpaint, savePdfLoop_eq,
    paint_of_no_throw _ hpaint]
  refine ⟨_, rfl, ?_⟩
  by_cases h0 : self.waypoints.countP (self.placeable page) = 0
  · simp [h0]
  · have hpos : 0 < self.waypoints.countP (self.placeable page) := Nat.pos_of_ne_zero h0
    rw [if_neg h0]
    cases (w.pdf self.pdfFileIn).Write self.pdfFileOut <;> simp [h0]

/-- C5, an instance: with one waypoint on the page, the loop ends with `waypointCount`
1 and `savePdf` calls `Write`. -/
theorem C5_zero_placed_no_write_witness :
    ∃ s : LoopState,
      (exampleInstance [wpOnPage]).savePdfLoop examplePdf { width := 200, height := 100 }
        exampleMetrics { ops := setupOps 8, waypointCount := 0, convertError := false }
        [wpOnPage] = some s ∧
      ((((exampleInstance [wpOnPage]).savePdf (exampleWorld [])).1 = g2pErr.INVALID_ARGUMENT ∧
        ((exampleInstance [wpOnPage]).savePdf (exampleWorld [])).2.writeCalled = false)
        ↔ s.waypointCount = 0) :=
  match C5_zero_placed_no_write (exampleInstance [wpOnPage]) (exampleWorld [])
      { width := 200, height := 100 } { GetFontMetrics := some exampleMetrics } exampleMetrics
      rfl rfl rfl rfl (fun _ => rfl) with
  | ⟨s, h1, _, _, h4, _⟩ => ⟨s, h1, h4⟩

/-- One turn of the loop for a waypoint whose conversion does not return `SUCCESS`: only
the flag `convertError` is set. -/
theorem savePdfStep_of_failure (self : gpx2pdf) (doc : PdfMemDocument) (page : PdfPage)
    (fontMetrics : PdfFontMetrics) (s : LoopState) (wp : waypoint)
    (hfail : (self.convertCoordsToPixels wp.lat wp.lon (some 0) (some 0)).1 ≠ g2pErr.SUCCESS) :
    self.savePdfStep doc page fontMetrics s wp = some { s with convertError := true } := by
  rcases hconv : self.convertCoordsToPixels wp.lat wp.lon (some 0) (some 0) with ⟨code, x, y⟩
  rw [hconv] at hfail
  cases code <;> first | exact absurd rfl hfail | simp [gpx2pdf.savePdfStep, hconv]

theorem wpBad_fails (waypoints : List waypoint) :
    ((exampleInstance waypoints).convertCoordsToPixels wpBad.lat wpBad.lon (some 0) (some 0)).1
      ≠ g2pErr.SUCCESS := by
  have h : ((exampleInstance waypoints).convertCoordsToPixels wpBad.lat wpBad.lon (some 0)
      (some 0)).1 = g2pErr.INVALID_ARGUMENT := by
    norm_num [exampleInstance, boundInstance, gpx2pdf.new, exampleTF, wpBad,
      gpx2pdf.convertCoordsToPixels]
  rw [h]
  decide

/-- C6 (the claim as stated fails): the loop keeps no count of failed conversions.  The
conversion of `wpBad` fails; the first failing turn sets the flag `convertError`, a second
failing turn leaves the loop state exactly as it was, so no number read from the loop
state goes up by one at every failed conversion. -/
theorem C6_no_conversion_error_count :
    ((exampleInstance []).convertCoordsToPixels wpBad.lat wpBad.lon (some 0) (some 0)).1
      = g2pErr.INVALID_ARGUMENT ∧
    (exampleInstance []).savePdfStep examplePdf { width := 200, height := 100 } exampleMetrics
      { ops := [], waypointCount := 0, convertError := false } wpBad
      = some { ops := [], waypointCount := 0, convertError := true } ∧
    (exampleInstance []).savePdfStep examplePdf { width := 200, height := 100 } exampleMetrics
      { ops := [], waypointCount := 0, convertError := true } wpBad
      = some { ops := [], waypointCount := 0, convertError := true } ∧
    ¬ ∃ conversionErrorCount : LoopState → Nat, ∀ s s' : LoopState,
      (exampleInstance []).savePdfStep examplePdf { width := 200, height := 100 } exampleMetrics
        s wpBad = some s' → conversionErrorCount s' = conversionErrorCount s + 1 := by
  refine ⟨?_, ?_, ?_, ?_⟩
  · norm_num [exampleInstance, boundInstance, gpx2pdf.new, exampleTF, wpBad,
      gpx2pdf.convertCoordsToPixels]
  · rw [savePdfStep_of_failure _ _ _ _ _ _ (wpBad_fails [])]
  · rw [savePdfStep_of_failure _ _ _ _ _ _ (wpBad_fails [])]
  · rintro ⟨count, hcount⟩
    have h := hcount { ops := [], waypointCount := 0, convertError := true }
      { ops := [], waypointCount := 0, convertError := true }
      (by rw [savePdfStep_of_failure _ _ _ _ _ _ (wpBad_fails [])])
    omega

/-- C6 as amended: a waypoint whose conversion does not return `SUCCESS` sets the flag
`convertError` and changes nothing else in the loop state (nothing drawn,
`waypointCount` as before); the loop goes through all stored waypoints, its
`waypointCount` is the number of waypoints that convert successfully and lie on the page
and its flag tells whether some conversion failed; and `savePdf` returns `SUCCESS` with
the file written whenever a stored waypoint is placeable and `Write` succeeds, whatever
conversions failed. -/
theorem C6_failed_conversion_sets_flag (self : gpx2pdf) (w : World) (page : PdfPage)
    (pFont : PdfFont) (fontMetrics : PdfFontMetrics)
    (hload : self.savePdfLoad (w.pdf self.pdfFileIn) = none)
    (hpage : self.savePdfPage (w.pdf self.pdfFileIn) = .ok page)
    (hfont : (w.pdf self.pdfFileIn).CreateFont "Helvetica" = .ok (some pFont))
    (hmetrics : pFont.GetFontMetrics = some fontMetrics)
    (hpaint : ∀ op, (w.pdf self.pdfFileIn).throws op = false) :
    (∀ (s : LoopState) (wp : waypoint),
      (self.convertCoordsToPixels wp.lat wp.lon (some 0) (some 0)).1 ≠ g2pErr.SUCCESS →
      self.savePdfStep (w.pdf self.pdfFileIn) page fontMetrics s wp
        = some { ops := s.ops, waypointCount := s.waypointCount, convertError := true }) ∧
    (∃ s : LoopState,
      self.savePdfLoop (w.pdf self.pdfFileIn) page fontMetrics
        { ops := setupOps self.nameFontSize, waypointCount := 0, convertError := false }
        self.waypoints = some s ∧
      s.waypointCount = (self.waypoints.countP (self.placeable page) : Nat) ∧
      (s.convertError = true ↔ ∃ wp ∈ self.waypoints,
        (self.convertCoordsToPixels wp.lat wp.lon (some 0) (some 0)).1 ≠ g2pErr.SUCCESS) ∧
      (self.savePdf w).2.waypointCount = s.waypointCount ∧
      (self.savePdf w).2.convertError = s.convertError) ∧
    ((∃ wp ∈ self.waypoints, self.placeable page wp = true) →
      (w.pdf self.pdfFileIn).Write self.pdfFileOut = true →
      (self.savePdf w).1 = g2pErr.SUCCESS ∧ (self.savePdf w).2.written = true) := by
  refine ⟨?_, ?_, ?_⟩
  · intro s wp hfail
    rw [savePdfStep_of_failure self _ page fontMetrics s wp hfail]
  · rw [savePdf_eq self w page pFont fontMetrics hload hpage hfont hmetrics hpaint,
      savePdfLoop_eq, paint_of_no_throw _ hpaint]
    refine ⟨_, rfl, ?_, ?_, ?_, ?_⟩
    · simp
    · simp [gpx2pdf.convertFails]
    · split <;> simp
    · split <;> simp
  · rintro ⟨wp, hmem, hpl⟩ hwrite
    have hcount : self.waypoints.countP (self.placeable page) ≠ 0 := by
      have : 0 < self.waypoints.countP (self.placeable page) :=
        List.countP_pos_iff.mpr ⟨wp, hmem, hpl⟩
      omega
    rw [savePdf_eq self w page pFont fontMetrics hload hpage hfont hmetrics hpaint,
      if_neg hcount]
    simp [hwrite]

theorem wpOnPage_placeable (waypoints : List waypoint) :
    (exampleInstance waypoints).placeable { width := 200, height := 100 } wpOnPage = true := by
  have h := exampleInstance_convert waypoints
  simp only [gpx2pdf.placeable, wpOnPage, h]
  norm_num [exampleInstance]

theorem wpOffPage_not_placeable (waypoints : List waypoint) :
    (exampleInstance waypoints).placeable { width := 200, height := 100 } wpOffPage = false := by
  have h : (exampleInstance waypoints).convertCoordsToPixels 41 (-75) (some 0) (some 0)
      = (g2pErr.SUCCESS, some 50, some (-50)) := by
    norm_num [exampleInstance, boundInstance, gpx2pdf.new, utmAffine, exampleTF,
      gpx2pdf.convertCoordsToPixels, fdiv, fmul]
  simp only [gpx2pdf.placeable, wpOffPage, h]
  norm_num [exampleInstance]

/-- C6 as amended, an instance: the stored waypoints are `wpBad`, whose conversion fails,
and `wpOnPage`; `savePdf` returns `SUCCESS` and the file is written. -/
theorem C6_failed_conversion_sets_flag_witness :
    ((exampleInstance [wpBad, wpOnPage]).savePdf (exampleWorld [])).1 = g2pErr.SUCCESS ∧
    ((exampleInstance [wpBad, wpOnPage]).savePdf (exampleWorld [])).2.written = true :=
  (C6_failed_conversion_sets_flag (exampleInstance [wpBad, wpOnPage]) (exampleWorld [])
    { width := 200, height := 100 } { GetFontMetrics := some exampleMetrics } exampleMetrics
    rfl rfl rfl rfl (fun _ => rfl)).2.2
    ⟨wpOnPage, List.mem_cons_of_mem _ (List.mem_singleton.mpr rfl), wpOnPage_placeable _⟩ rfl

/-- C7 (the claim as stated fails): a fresh instance run on a GPX file without `wpt`
elements returns `EMPTY_DATA` from `loadGpx`, which is not the `INVALID_ARGUMENT` that
`savePdf` returns when no waypoint is placed (here: one stored waypoint, off the page). -/
theorem C7_empty_file_not_INVALID_ARGUMENT :
    (freshInstance.doConversion (exampleWorld [])).result = g2pErr.EMPTY_DATA ∧
    (freshInstance.doConversion (exampleWorld [])).result ≠ g2pErr.INVALID_ARGUMENT ∧
    ((exampleInstance [wpOffPage]).savePdf (exampleWorld [])).1 = g2pErr.INVALID_ARGUMENT ∧
    ((exampleInstance [wpOffPage]).savePdf (exampleWorld [])).2.waypointCount = 0 := by
  have hrun : (freshInstance.doConversion (exampleWorld [])).result = g2pErr.EMPTY_DATA := by
    simp [gpx2pdf.doConversion, gpx2pdf.loadGpx, exampleWorld, freshInstance, gpx2pdf.new]
  have hsave := savePdf_eq (exampleInstance [wpOffPage]) (exampleWorld [])
    { width := 200, height := 100 } { GetFontMetrics := some exampleMetrics } exampleMetrics
    rfl rfl rfl rfl (fun _ => rfl)
  have hcount : (exampleInstance [wpOffPage]).waypoints.countP
      ((exampleInstance [wpOffPage]).placeable { width := 200, height := 100 }) = 0 := by
    show List.countP _ [wpOffPage] = 0
    simp [wpOffPage_not_placeable]
  rw [if_pos hcount] at hsave
  refine ⟨hrun, ?_, ?_, ?_⟩
  · rw [hrun]; decide
  · rw [hsave]
  · rw [hsave]; simp [hcount]

/-- C7 as amended: on an instance that holds no stored waypoints, when the GPX file is
parsed and no waypoint is read from it, `doConversion` returns `EMPTY_DATA` (the code of
`loadGpx`), the instance is left as it was (`getGeospatialData` is not run), `savePdf` is
not run: nothing is painted, `Write` is not called and no file is written. -/
theorem C7_no_waypoints_EMPTY_DATA (self : gpx2pdf) (w : World) (xmlWaypoints : List XmlWaypoint)
    (hstored : self.waypoints = [])
    (hfile : w.gpx self.gpxFile = GpxFile.parsed xmlWaypoints)
    (hnone : xmlWaypoints.foldl self.loadGpxStep [] = []) :
    (self.doConversion w).result = g2pErr.EMPTY_DATA ∧
    (self.doConversion w).self = self ∧
    (self.doConversion w).pdf = PdfEffects.nothing ∧
    (self.doConversion w).pdf.ops = [] ∧
    (self.doConversion w).pdf.writeCalled = false ∧
    (self.doConversion w).pdf.written = false := by
  have hload : self.loadGpx w = (g2pErr.EMPTY_DATA, self) := by
    simp only [gpx2pdf.loadGpx, hfile, hstored, hnone]
    cases self
    simp_all
  simp [gpx2pdf.doConversion, hload, PdfEffects.nothing]

/-- C7 as amended, an instance: a fresh instance and a GPX file whose only `wpt` element
has no name. -/
theorem C7_no_waypoints_EMPTY_DATA_witness :
    (freshInstance.doConversion (exampleWorld
      [{ lat := some 40, lon := some (-75), name := none, cacheName := none,
         gsakSmartName := none }])).result = g2pErr.EMPTY_DATA :=
  (C7_no_waypoints_EMPTY_DATA freshInstance (exampleWorld
      [{ lat := some 40, lon := some (-75), name := none, cacheName := none,
         gsakSmartName := none }]) _ rfl rfl rfl).1

/-- C8 (the claim as stated fails): the PDF file carries the affine
`[500000,10,0,4500000,0,0]`, whose determinant is 0, and a spatial reference;
`getGeospatialData` returns `SUCCESS`, stores that affine and binds the transformation, and
`convertCoordsToPixels` then runs its division with the zero determinant (the pixel is
non-finite). -/
theorem C8_degenerate_affine_accepted :
    degenerateAffine 1 * degenerateAffine 5 - degenerateAffine 2 * degenerateAffine 4 = 0 ∧
    (freshInstance.getGeospatialData (degenerateWorld [xmlOnPage])).1 = g2pErr.SUCCESS ∧
    (freshInstance.getGeospatialData (degenerateWorld [xmlOnPage])).2.adfGeoTransform
      = degenerateAffine ∧
    ((freshInstance.getGeospatialData (degenerateWorld [xmlOnPage])).2.convertCoordsToPixels
      40 (-75) (some 0) (some 0)) = (g2pErr.SUCCESS, none, none) := by
  refine ⟨?_, ?_, ?_, ?_⟩
  · norm_num [degenerateAffine]
  · simp [gpx2pdf.getGeospatialData, degenerateWorld, exampleWorld, freshInstance, gpx2pdf.new]
  · simp [gpx2pdf.getGeospatialData, degenerateWorld, exampleWorld, freshInstance, gpx2pdf.new]
  · norm_num [gpx2pdf.getGeospatialData, degenerateWorld, exampleWorld, freshInstance,
      gpx2pdf.new, gpx2pdf.convertCoordsToPixels, exampleTF, degenerateAffine, fdiv, fmul]

/-- C8 as amended: `getGeospatialData` does not look at the determinant of the affine.
It returns `FILE_ERROR` when the file cannot be opened; otherwise it stores the six
coefficients as read and returns `PARSE_ERROR` when `GetGeoTransform` fails, `ERROR` when
the geotransform is there but the spatial reference is not, and `SUCCESS` when both are
there, also when the determinant `c1*c5 - c2*c4` is 0. -/
theorem C8_resolver_ignores_determinant (self : gpx2pdf) (w : World) :
    (w.GDALOpen self.pdfFileIn
        (if self.pdfPassword.length ≠ 0 then some ("USER_PWD=" ++ self.pdfPassword) else none)
        = none →
      self.getGeospatialData w = (g2pErr.FILE_ERROR, self)) ∧
    (∀ pdfDataset : GDALDataset,
      w.GDALOpen self.pdfFileIn
        (if self.pdfPassword.length ≠ 0 then some ("USER_PWD=" ++ self.pdfPassword) else none)
        = some pdfDataset →
      (self.getGeospatialData w).2.adfGeoTransform = pdfDataset.GetGeoTransform.2 ∧
      (pdfDataset.GetGeoTransform.1 = false →
        (self.getGeospatialData w).1 = g2pErr.PARSE_ERROR) ∧
      (pdfDataset.GetGeoTransform.1 = true → pdfDataset.GetSpatialRef = none →
        (self.getGeospatialData w).1 = g2pErr.ERROR) ∧
      (pdfDataset.GetGeoTransform.1 = true → pdfDataset.GetSpatialRef ≠ none →
        (self.getGeospatialData w).1 = g2pErr.SUCCESS) ∧
      (pdfDataset.GetGeoTransform.1 = true → pdfDataset.GetSpatialRef ≠ none →
        pdfDataset.GetGeoTransform.2 1 * pdfDataset.GetGeoTransform.2 5
          - pdfDataset.GetGeoTransform.2 2 * pdfDataset.GetGeoTransform.2 4 = 0 →
        (self.getGeospatialData w).1 = g2pErr.SUCCESS ∧
        (self.getGeospatialData w).2.adfGeoTransform 1 * (self.getGeospatialData w).2.adfGeoTransform 5
          - (self.getGeospatialData w).2.adfGeoTransform 2
            * (self.getGeospatialData w).2.adfGeoTransform 4 = 0)) := by
  refine ⟨?_, ?_⟩
  · intro hopen
    simp only [gpx2pdf.getGeospatialData, hopen]
  · intro pdfDataset hopen
    have hstore : (self.getGeospatialData w).2.adfGeoTransform = pdfDataset.GetGeoTransform.2 := by
      simp only [gpx2pdf.getGeospatialData, hopen]
      split
      · split
        · split <;> rfl
        · rfl
      · rfl
    have hsucc : pdfDataset.GetGeoTransform.1 = true → pdfDataset.GetSpatialRef ≠ none →
        (self.getGeospatialData w).1 = g2pErr.SUCCESS := by
      intro hgeo hsrs
      simp only [gpx2pdf.getGeospatialData, hopen, hgeo, if_true]
      cases hs : pdfDataset.GetSpatialRef with
      | none => exact absurd hs hsrs
      | some spatialRef =>
        simp only []
        split <;> rfl
    refine ⟨hstore, ?_, ?_, hsucc, ?_⟩
    · intro hgeo
      simp only [gpx2pdf.getGeospatialData, hopen, hgeo]
      rfl
    · intro hgeo hsrs
      simp only [gpx2pdf.getGeospatialData, hopen, hgeo, hsrs, if_true]
    · intro hgeo hsrs hdet
      refine ⟨hsucc hgeo hsrs, ?_⟩
      rw [hstore]
      exact hdet

/-- C8 as amended, an instance: the dataset of `degenerateWorld` is accepted. -/
theorem C8_resolver_ignores_determinant_witness :
    (freshInstance.getGeospatialData (degenerateWorld [])).1 = g2pErr.SUCCESS :=
  ((C8_resolver_ignores_determinant freshInstance (degenerateWorld [])).2
    { GetGeoTransform := (true, degenerateAffine)
      GetRasterXSize := 100
      GetRasterYSize := 100
      GetSpatialRef := some { wkt := "EPSG:32618" } } rfl).2.2.2.1 rfl (by simp)

theorem paint_some (doc : PdfMemDocument) (done ops result : List PainterOp)
    (h : paint doc done ops = some result) : result = done ++ ops := by
  unfold paint at h
  split at h
  · cases h
  · exact (Option.some.inj h).symm

/-- The painting block, whenever it does not return `ERROR`: the set-up calls, the calls
of the waypoints in their order and `FinishPage` were carried out. -/
theorem savePdfPaint_some (self : gpx2pdf) (doc : PdfMemDocument) (page : PdfPage)
    (s : LoopState) (h : self.savePdfPaint doc page = some s) :
    ∃ fontMetrics : PdfFontMetrics,
      s = { ops := setupOps self.nameFontSize
              ++ self.waypoints.flatMap (self.waypointOps page fontMetrics)
              ++ [PainterOp.FinishPage],
            waypointCount := (self.waypoints.countP (self.placeable page) : Nat),
            convertError := self.waypoints.any self.convertFails } := by
  unfold gpx2pdf.savePdfPaint at h
  cases h1 : paint doc [] [PainterOp.SetPage] with
  | none => simp [h1] at h
  | some ops1 =>
    cases hfont : doc.CreateFont "Helvetica" with
    | error e => simp [h1, hfont] at h
    | ok font =>
      cases font with
      | none => simp [h1, hfont] at h
      | some pFont =>
        cases h2 : paint doc ops1 [PainterOp.SetFont self.nameFontSize] with
        | none => simp [h1, hfont, h2] at h
        | some ops2 =>
          cases hm : pFont.GetFontMetrics with
          | none => simp [h1, hfont, h2, hm] at h
          | some fontMetrics =>
            cases h3 : paint doc ops2
                [PainterOp.SetStrokingColor 0 0 0, PainterOp.SetStrokeWidth 1] with
            | none => simp [h1, hfont, h2, hm, h3] at h
            | some ops3 =>
              simp only [h1, hfont, h2, hm, h3, savePdfLoop_eq] at h
              cases h4 : paint doc ops3
                  (self.waypoints.flatMap (self.waypointOps page fontMetrics)) with
              | none => simp [h4] at h
              | some ops4 =>
                simp only [h4, Option.map_some'] at h
                cases h5 : paint doc ops4 [PainterOp.FinishPage] with
                | none => simp [h5] at h
                | some ops5 =>
                  simp only [h5, Option.some.injEq] at h
                  refine ⟨fontMetrics, ?_⟩
                  rw [← h, paint_some _ _ _ _ h5, paint_some _ _ _ _ h4, paint_some _ _ _ _ h3,
                    paint_some _ _ _ _ h2, paint_some _ _ _ _ h1]
                  simp [setupOps]

theorem savePdfLoad_ne_SUCCESS (self : gpx2pdf) (doc : PdfMemDocument) (err : g2pErr)
    (h : self.savePdfLoad doc = some err) : err ≠ g2pErr.SUCCESS := by
  unfold gpx2pdf.savePdfLoad at h
  split at h
  · cases h
  · split at h
    · split at h
      · cases h
      · cases h; decide
    · cases h; decide
  · cases h; decide

theorem savePdfPage_ne_SUCCESS (self : gpx2pdf) (doc : PdfMemDocument) (err : g2pErr)
    (h : self.savePdfPage doc = .error err) : err ≠ g2pErr.SUCCESS := by
  unfold gpx2pdf.savePdfPage at h
  simp only at h
  split at h
  · cases h; decide
  · split at h
    · cases h; decide
    · cases h; decide
    · cases h

theorem placeable_of_unbound (self : gpx2pdf) (page : PdfPage) (wp : waypoint)
    (h : self.coordTF = none) : self.placeable page wp = false := by
  simp [gpx2pdf.placeable, gpx2pdf.convertCoordsToPixels, h]

theorem waypointOps_of_unbound (self : gpx2pdf) (page : PdfPage) (fontMetrics : PdfFontMetrics)
    (wp : waypoint) (h : self.coordTF = none) : self.waypointOps page fontMetrics wp = [] := by
  simp [gpx2pdf.waypointOps, gpx2pdf.convertCoordsToPixels, h]

/-- With no transformation bound, `savePdf` fails, draws no waypoint and writes nothing. -/
theorem savePdf_of_unbound (self : gpx2pdf) (w : World) (h : self.coordTF = none) :
    (self.savePdf w).1 ≠ g2pErr.SUCCESS ∧
    (self.savePdf w).2.writeCalled = false ∧
    (self.savePdf w).2.written = false ∧
    (self.savePdf w).2.waypointCount = 0 ∧
    ((self.savePdf w).2.ops = [] ∨
      (self.savePdf w).2.ops = setupOps self.nameFontSize ++ [PainterOp.FinishPage]) := by
  unfold gpx2pdf.savePdf
  simp only
  cases hload : self.savePdfLoad (w.pdf self.pdfFileIn) with
  | some err =>
    simp [PdfEffects.nothing, savePdfLoad_ne_SUCCESS self _ err hload]
  | none =>
    dsimp only
    cases hpage : self.savePdfPage (w.pdf self.pdfFileIn) with
    | error err => simp [PdfEffects.nothing, savePdfPage_ne_SUCCESS self _ err hpage]
    | ok page =>
      dsimp only
      cases hp : self.savePdfPaint (w.pdf self.pdfFileIn) page with
      | none => simp [PdfEffects.nothing]
      | some s =>
        obtain ⟨fontMetrics, hs⟩ := savePdfPaint_some self _ page s hp
        have hcount : self.waypoints.countP (self.placeable page) = 0 := by
          rw [List.countP_eq_zero]
          intro wp _
          simp [placeable_of_unbound self page wp h]
        have hops : self.waypoints.flatMap (self.waypointOps page fontMetrics) = [] := by
          rw [List.flatMap_eq_nil_iff]
          intro wp _
          exact waypointOps_of_unbound self page fontMetrics wp h
        rw [hcount, hops] at hs
        subst hs
        simp

/-- The method `loadGpx` changes no member but the stored waypoints. -/
theorem loadGpx_self (self : gpx2pdf) (w : World) :
    (self.loadGpx w).2 = { self with waypoints := (self.loadGpx w).2.waypoints } := by
  unfold gpx2pdf.loadGpx
  split
  · rfl
  · rfl
  · dsimp only
    split <;> rfl

/-- The transformation stays unbound when the spatial reference is absent, cloning it
fails or creating the transformation returns null. -/
theorem getGeospatialData_unbound (self : gpx2pdf) (w : World) (pdfDataset : GDALDataset)
    (h : self.coordTF = none)
    (hopen : w.GDALOpen self.pdfFileIn
      (if self.pdfPassword.length ≠ 0 then some ("USER_PWD=" ++ self.pdfPassword) else none)
      = some pdfDataset)
    (hcause : pdfDataset.GetSpatialRef = none ∨
      ∃ spatialRef, pdfDataset.GetSpatialRef = some spatialRef ∧
        (w.Clone spatialRef = none ∨
          ∃ pdfSRS, w.Clone spatialRef = some pdfSRS ∧
            w.OGRCreateCoordinateTransformation self.WGS84 pdfSRS = none)) :
    (self.getGeospatialData w).2.coordTF = none := by
  simp only [gpx2pdf.getGeospatialData, hopen]
  split
  · rcases hcause with hnone | ⟨spatialRef, hsome, hclone | ⟨pdfSRS, hclone, hcreate⟩⟩
    · simp only [hnone]
      exact h
    · simp only [hsome, hclone]
      exact h
    · simp only [hsome, hclone]
      exact hcreate
  · exact h

/-- C9: when no coordinate transformation is bound in the instance at the end of a run of
`doConversion` (the state `savePdf` works on), the run returns a code other than `SUCCESS`,
`Write` is not called, no file is written and no waypoint is drawn: the painter calls are
none or only the set-up calls and `FinishPage`.  On an instance without a bound
transformation that is the case whenever the dataset has no spatial reference, cloning it
fails, or creating the transformation returns null. -/
theorem C9_no_transformation_is_fatal (self : gpx2pdf) (w : World) :
    ((self.doConversion w).self.coordTF = none →
      (self.doConversion w).result ≠ g2pErr.SUCCESS ∧
      (self.doConversion w).pdf.writeCalled = false ∧
      (self.doConversion w).pdf.written = false ∧
      (self.doConversion w).pdf.waypointCount = 0 ∧
      ((self.doConversion w).pdf.ops = [] ∨
        (self.doConversion w).pdf.ops
          = setupOps self.nameFontSize ++ [PainterOp.FinishPage])) ∧
    (self.coordTF = none →
      ∀ pdfDataset : GDALDataset,
      w.GDALOpen self.pdfFileIn
        (if self.pdfPassword.length ≠ 0 then some ("USER_PWD=" ++ self.pdfPassword) else none)
        = some pdfDataset →
      (pdfDataset.GetSpatialRef = none ∨
        ∃ spatialRef, pdfDataset.GetSpatialRef = some spatialRef ∧
          (w.Clone spatialRef = none ∨
            ∃ pdfSRS, w.Clone spatialRef = some pdfSRS ∧
              w.OGRCreateCoordinateTransformation self.WGS84 pdfSRS = none)) →
      (self.doConversion w).self.coordTF = none) := by
  have hl := loadGpx_self self w
  refine ⟨?_, ?_⟩
  · unfold gpx2pdf.doConversion
    dsimp only
    split
    · rename_i hfail
      intro _
      exact ⟨hfail, by simp [PdfEffects.nothing]⟩
    · split
      · rename_i hfail
        intro _
        exact ⟨hfail, by simp [PdfEffects.nothing]⟩
      · intro hunbound
        have hsize : ((self.loadGpx w).2.getGeospatialData w).2.nameFontSize
            = self.nameFontSize := by
          rw [hl]
          simp only [gpx2pdf.getGeospatialData]
          split
          · rfl
          · split
            · split
              · split <;> rfl
              · rfl
            · rfl
        have := savePdf_of_unbound ((self.loadGpx w).2.getGeospatialData w).2 w hunbound
        rw [hsize] at this
        exact this
  · intro hunbound pdfDataset hopen hcause
    unfold gpx2pdf.doConversion
    dsimp only
    split
    · rw [hl]
      exact hunbound
    · have hgeo := getGeospatialData_unbound (self.loadGpx w).2 w pdfDataset
        (by rw [hl]; exact hunbound) (by rw [hl]; exact hopen) (by rw [hl]; exact hcause)
      split
      · exact hgeo
      · exact hgeo

/-- C9, an instance: cloning the spatial reference fails, so no transformation is bound,
and the run of a fresh instance on a GPX file with a waypoint does not return `SUCCESS`. -/
theorem C9_no_transformation_is_fatal_witness :
    (freshInstance.doConversion (cloneFailsWorld [xmlOnPage])).result ≠ g2pErr.SUCCESS ∧
    (freshInstance.doConversion (cloneFailsWorld [xmlOnPage])).pdf.written = false :=
  have h := (C9_no_transformation_is_fatal freshInstance (cloneFailsWorld [xmlOnPage])).1
    ((C9_no_transformation_is_fatal freshInstance (cloneFailsWorld [xmlOnPage])).2 rfl
      { GetGeoTransform := (true, utmAffine)
        GetRasterXSize := 100
        GetRasterYSize := 100
        GetSpatialRef := some { wkt := "EPSG:32618" } } rfl
      (Or.inr ⟨{ wkt := "EPSG:32618" }, rfl, Or.inl rfl⟩))
  ⟨h.1, h.2.2.1⟩

theorem fresh_loadGpx :
    freshInstance.loadGpx (exampleWorld [xmlOnPage])
      = (g2pErr.SUCCESS, { freshInstance with waypoints := [wpOnPage] }) := by
  have hleft : ((QString.fromText "A").left 10).toStdString = "A" := by decide
  simp [gpx2pdf.loadGpx, gpx2pdf.loadGpxStep, exampleWorld, freshInstance, gpx2pdf.new,
    xmlOnPage, wpOnPage, hleft]

theorem fresh_first_run :
    freshInstance.doConversion (exampleWorld [xmlOnPage]) =
      { result := ((exampleInstance [wpOnPage]).savePdf (exampleWorld [xmlOnPage])).1,
        self := exampleInstance [wpOnPage],
        pdf := ((exampleInstance [wpOnPage]).savePdf (exampleWorld [xmlOnPage])).2 } := by
  have hgeo : ({ freshInstance with waypoints := [wpOnPage] } : gpx2pdf).getGeospatialData
      (exampleWorld [xmlOnPage]) = (g2pErr.SUCCESS, exampleInstance [wpOnPage]) := by
    simp [gpx2pdf.getGeospatialData, exampleWorld, freshInstance, gpx2pdf.new, exampleInstance,
      boundInstance]
  simp only [gpx2pdf.doConversion, fresh_loadGpx, hgeo]
  simp

theorem example_second_run :
    (exampleInstance [wpOnPage]).doConversion (exampleWorld [xmlOnPage]) =
      { result := ((exampleInstance [wpOnPage, wpOnPage]).savePdf (exampleWorld [xmlOnPage])).1,
        self := exampleInstance [wpOnPage, wpOnPage],
        pdf := ((exampleInstance [wpOnPage, wpOnPage]).savePdf (exampleWorld [xmlOnPage])).2 } := by
  have hleft : ((QString.fromText "A").left 10).toStdString = "A" := by decide
  have hload : (exampleInstance [wpOnPage]).loadGpx (exampleWorld [xmlOnPage])
      = (g2pErr.SUCCESS, exampleInstance [wpOnPage, wpOnPage]) := by
    simp [gpx2pdf.loadGpx, gpx2pdf.loadGpxStep, exampleWorld, exampleInstance, boundInstance,
      gpx2pdf.new, xmlOnPage, wpOnPage, hleft]
  have hgeo : (exampleInstance [wpOnPage, wpOnPage]).getGeospatialData
      (exampleWorld [xmlOnPage]) = (g2pErr.SUCCESS, exampleInstance [wpOnPage, wpOnPage]) := by
    simp [gpx2pdf.getGeospatialData, exampleWorld, gpx2pdf.new, exampleInstance, boundInstance]
  simp only [gpx2pdf.doConversion, hload, hgeo]
  simp

theorem wpOnPage_ops (waypoints : List waypoint) :
    (exampleInstance waypoints).waypointOps { width := 200, height := 100 } exampleMetrics wpOnPage
      = markerOps 8 100 100 50 4 "A" := by
  have h := exampleInstance_convert waypoints
  have hp := wpOnPage_placeable waypoints
  have hlen : ("A".length : ℚ) = 1 := by
    have : "A".length = 1 := by decide
    rw [this]; norm_num
  simp only [gpx2pdf.waypointOps, hp, if_true]
  simp only [wpOnPage, h]
  norm_num [exampleInstance, boundInstance, gpx2pdf.new, exampleMetrics, hlen]

/-- The result of `savePdf` on the example instance holding `n` copies of `wpOnPage`
after the first one. -/
theorem example_savePdf (rest : List waypoint) (hrest : ∀ wp ∈ rest, wp = wpOnPage) :
    (exampleInstance (wpOnPage :: rest)).savePdf (exampleWorld [xmlOnPage]) =
      (g2pErr.SUCCESS,
        { ops := setupOps 8
            ++ (wpOnPage :: rest).flatMap (fun _ => markerOps 8 100 100 50 4 "A")
            ++ [PainterOp.FinishPage],
          waypointCount := (rest.length : Int) + 1,
          convertError := false,
          writeCalled := true, written := true }) := by
  have hsave := savePdf_eq (exampleInstance (wpOnPage :: rest)) (exampleWorld [xmlOnPage])
    { width := 200, height := 100 } { GetFontMetrics := some exampleMetrics } exampleMetrics
    rfl rfl rfl rfl (fun _ => rfl)
  have hws : (exampleInstance (wpOnPage :: rest)).waypoints = wpOnPage :: rest := rfl
  have hcount : (wpOnPage :: rest).countP
      ((exampleInstance (wpOnPage :: rest)).placeable { width := 200, height := 100 })
      = rest.length + 1 := by
    rw [List.countP_eq_length.mpr]
    · simp
    · intro wp hwp
      rcases List.mem_cons.mp hwp with h | h
      · rw [h]; exact wpOnPage_placeable _
      · rw [hrest wp h]; exact wpOnPage_placeable _
  have hops : (wpOnPage :: rest).flatMap
      ((exampleInstance (wpOnPage :: rest)).waypointOps { width := 200, height := 100 }
        exampleMetrics)
      = (wpOnPage :: rest).flatMap (fun _ => markerOps 8 100 100 50 4 "A") := by
    have hall : ∀ wp ∈ wpOnPage :: rest, wp = wpOnPage := by
      intro wp hwp
      rcases List.mem_cons.mp hwp with h | h
      · exact h
      · exact hrest wp h
    have hgen : ∀ l : List waypoint, (∀ wp ∈ l, wp = wpOnPage) →
        l.flatMap ((exampleInstance (wpOnPage :: rest)).waypointOps
          { width := 200, height := 100 } exampleMetrics)
        = l.flatMap (fun _ => markerOps 8 100 100 50 4 "A") := by
      intro l
      induction l with
      | nil => intro _; rfl
      | cons wp tl ih =>
        intro hl
        rw [List.flatMap_cons, List.flatMap_cons, ih (fun x hx => hl x (List.mem_cons_of_mem _ hx)),
          hl wp (List.mem_cons_self _ _), wpOnPage_ops]
    exact hgen _ hall
  have hfail : (wpOnPage :: rest).any (exampleInstance (wpOnPage :: rest)).convertFails
      = false := by
    rw [List.any_eq_false]
    intro wp hwp
    have hwp' : wp = wpOnPage := by
      rcases List.mem_cons.mp hwp with h | h
      · exact h
      · exact hrest wp h
    rw [hwp']
    simp [gpx2pdf.convertFails, wpOnPage, exampleInstance_convert]
  rw [hsave, hws, hcount, hops, hfail]
  simp [exampleInstance, boundInstance, gpx2pdf.new, exampleWorld, examplePdf]

/-- C10 (the code departs from the claim): a fresh instance is run twice on the same
files, a GPX file with the one waypoint `(40, -75)` named A and the georeferenced PDF of
the examples.  Both runs return `SUCCESS`; the first run reads one waypoint and draws one
marker, the second run works on a stored list that holds the waypoint twice, counts 2
waypoints added and draws the marker twice. -/
theorem C10_second_run_draws_twice :
    (freshInstance.doConversion (exampleWorld [xmlOnPage])).result = g2pErr.SUCCESS ∧
    (freshInstance.doConversion (exampleWorld [xmlOnPage])).self.waypoints = [wpOnPage] ∧
    (freshInstance.doConversion (exampleWorld [xmlOnPage])).pdf.waypointCount = 1 ∧
    (freshInstance.doConversion (exampleWorld [xmlOnPage])).pdf.ops
      = setupOps 8 ++ markerOps 8 100 100 50 4 "A" ++ [PainterOp.FinishPage] ∧
    ((freshInstance.doConversion (exampleWorld [xmlOnPage])).self.doConversion
      (exampleWorld [xmlOnPage])).result = g2pErr.SUCCESS ∧
    ((freshInstance.doConversion (exampleWorld [xmlOnPage])).self.doConversion
      (exampleWorld [xmlOnPage])).self.waypoints = [wpOnPage, wpOnPage] ∧
    ((freshInstance.doConversion (exampleWorld [xmlOnPage])).self.doConversion
      (exampleWorld [xmlOnPage])).pdf.waypointCount = 2 ∧
    ((freshInstance.doConversion (exampleWorld [xmlOnPage])).self.doConversion
      (exampleWorld [xmlOnPage])).pdf.ops
      = setupOps 8 ++ markerOps 8 100 100 50 4 "A" ++ markerOps 8 100 100 50 4 "A"
        ++ [PainterOp.FinishPage] := by
  have h1 := example_savePdf [] (by simp)
  have h2 := example_savePdf [wpOnPage] (by simp)
  rw [fresh_first_run]
  dsimp only
  rw [example_second_run, h1, h2]
  refine ⟨rfl, rfl, ?_, ?_, rfl, rfl, ?_, ?_⟩
  · simp
  · simp
  · norm_num
  · simp

/-- C11: `doConversion` is the call of `loadGpx`, `getGeospatialData` and `savePdf` in
that order with early exit.  It returns `SUCCESS` exactly when all three steps return
`SUCCESS`; otherwise it returns the code of the first step that failed, and the steps
after that one are not called: when `loadGpx` fails only `loadGpx` was called, the
instance is as `loadGpx` left it and the PDF is untouched; when `getGeospatialData` fails
only the first two steps were called and the PDF is untouched. -/
theorem C11_doConversion_is_three_steps (self : gpx2pdf) (w : World) :
    self.doConversion w
      = (self.callInOrder w [Step.loadGpx, Step.getGeospatialData, Step.savePdf]).1 ∧
    ((self.doConversion w).result = g2pErr.SUCCESS ↔
      (self.loadGpx w).1 = g2pErr.SUCCESS ∧
      ((self.loadGpx w).2.getGeospatialData w).1 = g2pErr.SUCCESS ∧
      (((self.loadGpx w).2.getGeospatialData w).2.savePdf w).1 = g2pErr.SUCCESS) ∧
    ((self.loadGpx w).1 ≠ g2pErr.SUCCESS →
      (self.doConversion w).result = (self.loadGpx w).1 ∧
      (self.doConversion w).self = (self.loadGpx w).2 ∧
      (self.doConversion w).pdf = PdfEffects.nothing ∧
      (self.callInOrder w [Step.loadGpx, Step.getGeospatialData, Step.savePdf]).2
        = [Step.loadGpx]) ∧
    ((self.loadGpx w).1 = g2pErr.SUCCESS →
      ((self.loadGpx w).2.getGeospatialData w).1 ≠ g2pErr.SUCCESS →
      (self.doConversion w).result = ((self.loadGpx w).2.getGeospatialData w).1 ∧
      (self.doConversion w).self = ((self.loadGpx w).2.getGeospatialData w).2 ∧
      (self.doConversion w).pdf = PdfEffects.nothing ∧
      (self.callInOrder w [Step.loadGpx, Step.getGeospatialData, Step.savePdf]).2
        = [Step.loadGpx, Step.getGeospatialData]) ∧
    ((self.loadGpx w).1 = g2pErr.SUCCESS →
      ((self.loadGpx w).2.getGeospatialData w).1 = g2pErr.SUCCESS →
      (self.doConversion w).result
        = (((self.loadGpx w).2.getGeospatialData w).2.savePdf w).1 ∧
      (self.doConversion w).self = ((self.loadGpx w).2.getGeospatialData w).2 ∧
      (self.doConversion w).pdf = (((self.loadGpx w).2.getGeospatialData w).2.savePdf w).2 ∧
      (self.callInOrder w [Step.loadGpx, Step.getGeospatialData, Step.savePdf]).2
        = [Step.loadGpx, Step.getGeospatialData, Step.savePdf]) := by
  by_cases h1 : (self.loadGpx w).1 = g2pErr.SUCCESS
  · by_cases h2 : ((self.loadGpx w).2.getGeospatialData w).1 = g2pErr.SUCCESS
    · simp [gpx2pdf.doConversion, gpx2pdf.callInOrder, gpx2pdf.callStep, h1, h2]
    · simp [gpx2pdf.doConversion, gpx2pdf.callInOrder, gpx2pdf.callStep, h1, h2]
  · simp [gpx2pdf.doConversion, gpx2pdf.callInOrder, gpx2pdf.callStep, h1]

/-- C11, an instance: on a GPX file without waypoints `loadGpx` fails with `EMPTY_DATA`,
which is what `doConversion` returns, and no other step is called. -/
theorem C11_doConversion_is_three_steps_witness :
    (freshInstance.doConversion (exampleWorld [])).result
      = (freshInstance.loadGpx (exampleWorld [])).1 ∧
    (freshInstance.callInOrder (exampleWorld [])
      [Step.loadGpx, Step.getGeospatialData, Step.savePdf]).2 = [Step.loadGpx] :=
  have h := (C11_doConversion_is_three_steps freshInstance (exampleWorld [])).2.2.1
    (by simp [gpx2pdf.loadGpx, exampleWorld, freshInstance, gpx2pdf.new])
  ⟨h.1, h.2.2.2⟩

/-- The pixel that `convertCoordsToPixels` computes when a transformation is bound,
succeeds on the point and the determinant is not zero. -/
theorem convertCoordsToPixels_of_det (self : gpx2pdf) (tf : OGRCoordinateTransformation)
    (lat lon wx wy : ℚ) (x y : Option ℚ)
    (hbound : self.coordTF = some tf)
    (htransform : tf.Transform lat lon = some (wx, wy))
    (hdet : self.adfGeoTransform 1 * self.adfGeoTransform 5
      - self.adfGeoTransform 2 * self.adfGeoTransform 4 ≠ 0) :
    self.convertCoordsToPixels lat lon x y =
      (g2pErr.SUCCESS,
        some ((((wx - self.adfGeoTransform 0) * self.adfGeoTransform 5)
            + ((wy - self.adfGeoTransform 3) * -1 * self.adfGeoTransform 4))
          * (1 / (self.adfGeoTransform 1 * self.adfGeoTransform 5
            - self.adfGeoTransform 2 * self.adfGeoTransform 4))),
        some ((((wx - self.adfGeoTransform 0) * -1 * self.adfGeoTransform 2)
            + ((wy - self.adfGeoTransform 3) * self.adfGeoTransform 1))
          * (1 / (self.adfGeoTransform 1 * self.adfGeoTransform 5
            - self.adfGeoTransform 2 * self.adfGeoTransform 4)))) := by
  simp only [gpx2pdf.convertCoordsToPixels, hbound, htransform, fdiv, if_neg hdet, fmul,
    Option.map_some']

/-- C14: when the two rotation terms of the affine are equal (`c2 = c4`, as for every
north-up affine, where both are 0) and the determinant `c1*c5 - c2*c4` is not zero,
`convertCoordsToPixels` returns `SUCCESS` with a finite pixel `(col, row)` that the forward
affine takes back to the world point: `c0 + col*c1 + row*c2 = wx` and
`c3 + col*c4 + row*c5 = wy`. -/
theorem C14_round_trip_equal_rotation_terms (self : gpx2pdf) (tf : OGRCoordinateTransformation)
    (lat lon wx wy : ℚ) (x y : Option ℚ)
    (hbound : self.coordTF = some tf)
    (htransform : tf.Transform lat lon = some (wx, wy))
    (hsym : self.adfGeoTransform 2 = self.adfGeoTransform 4)
    (hdet : self.adfGeoTransform 1 * self.adfGeoTransform 5
      - self.adfGeoTransform 2 * self.adfGeoTransform 4 ≠ 0) :
    ∃ col row : ℚ,
      self.convertCoordsToPixels lat lon x y = (g2pErr.SUCCESS, some col, some row) ∧
      self.adfGeoTransform 0 + col * self.adfGeoTransform 1 + row * self.adfGeoTransform 2 = wx ∧
      self.adfGeoTransform 3 + col * self.adfGeoTransform 4 + row * self.adfGeoTransform 5 = wy ∧
      affineForward self.adfGeoTransform col row = (wx, wy) := by
  refine ⟨_, _, convertCoordsToPixels_of_det self tf lat lon wx wy x y hbound htransform hdet,
    ?_, ?_, ?_⟩
  · rw [← hsym] at hdet ⊢
    field_simp
    ring
  · rw [← hsym] at hdet ⊢
    field_simp
    ring
  · rw [← hsym] at hdet
    unfold affineForward
    rw [← hsym]
    refine Prod.ext ?_ ?_
    · show _ = wx
      field_simp
      ring
    · show _ = wy
      field_simp
      ring

/-- C14, an instance: the north-up affine `[500000,10,0,4500000,0,-10]` and the world
point `(500500, 4499500)`. -/
theorem C14_round_trip_equal_rotation_terms_witness :
    ∃ col row : ℚ,
      (exampleInstance []).convertCoordsToPixels 40 (-75) (some 0) (some 0)
        = (g2pErr.SUCCESS, some col, some row) ∧
      affineForward utmAffine col row = (500500, 4499500) :=
  match C14_round_trip_equal_rotation_terms (exampleInstance []) exampleTF 40 (-75)
      500500 4499500 (some 0) (some 0) rfl
      (by norm_num [exampleTF]) rfl
      (by norm_num [exampleInstance, boundInstance, gpx2pdf.new, utmAffine]) with
  | ⟨col, row, h1, _, _, h4⟩ => ⟨col, row, h1, h4⟩

/-- C13 (the claim as stated fails in its item 5): `savePdf` on the example instance
holding `wpOnPage` draws the marker at `(100, 50)` on the page of height 100 with text
width 4 and font size 8.  The label rectangle is `(96, 56)` 8 wide and 11 high, with
centre `(100, 61.5)`; the box in which the name is centred has the same corner and
width but is 10 high, with centre `(100, 61)`: the text is not centred within the label
rectangle. -/
theorem C13_text_box_is_not_label_rectangle :
    ((exampleInstance [wpOnPage]).savePdf (exampleWorld [xmlOnPage])).2.ops
      = setupOps 8 ++ markerOps 8 100 100 50 4 "A" ++ [PainterOp.FinishPage] ∧
    markerOps 8 100 100 50 4 "A" =
      [ PainterOp.SetColor 1 1 0,
        PainterOp.Rectangle 96 56 8 11,
        PainterOp.FillAndStroke,
        PainterOp.DrawLine 100 56 100 50,
        PainterOp.SetColor 1 1 1,
        PainterOp.Circle 100 50 3,
        PainterOp.FillAndStroke,
        PainterOp.DrawLine 100 52 100 48,
        PainterOp.DrawLine 102 50 98 50,
        PainterOp.SetColor 0 0 0,
        PainterOp.DrawMultiLineText 96 56 8 10 "A" EPdfAlignment.Center
          EPdfVerticalAlignment.Center ] ∧
    (PainterOp.Rectangle 96 56 8 11).box.map Rect.centre = some (100, 123 / 2) ∧
    (PainterOp.DrawMultiLineText 96 56 8 10 "A" EPdfAlignment.Center
      EPdfVerticalAlignment.Center).box.map Rect.centre = some (100, 61) ∧
    (PainterOp.DrawMultiLineText 96 56 8 10 "A" EPdfAlignment.Center
      EPdfVerticalAlignment.Center).box ≠ (PainterOp.Rectangle 96 56 8 11).box ∧
    (PainterOp.DrawMultiLineText 96 56 8 10 "A" EPdfAlignment.Center
      EPdfVerticalAlignment.Center).box.map Rect.centre
      ≠ (PainterOp.Rectangle 96 56 8 11).box.map Rect.centre := by
  refine ⟨?_, ?_, ?_, ?_, ?_, ?_⟩
  · rw [example_savePdf [] (by simp)]
    simp
  · norm_num [markerOps]
  · norm_num [PainterOp.box, Rect.centre]
  · norm_num [PainterOp.box, Rect.centre]
  · norm_num [PainterOp.box]
  · norm_num [PainterOp.box, Rect.centre]

/-- C13 as amended: when the document is loaded, the page, the font and its metrics are
obtained and no painter call throws, the painter calls of `savePdf` are the set-up calls,
then the calls of the stored waypoints in their input order, then `FinishPage`; a waypoint
that is not placeable has no calls; a drawn waypoint at `(x, y)` with text width `w` and
font size `f` on a page of height `H` has exactly these calls in this order: (1) colour
yellow, the rectangle `(x - w/2 - 2, H - y + 6)` of width `w + 4` and height `f + 3`, fill
and stroke; (2) the line from `(x, H - y + 6)` to `(x, H - y)`; (3) colour white, the circle
of radius 3 at `(x, H - y)`, fill and stroke; (4) the lines from `(x, H - y + 2)` to
`(x, H - y - 2)` and from `(x + 2, H - y)` to `(x - 2, H - y)`; (5) colour black, the name
aligned centre/centre in the box `(x - w/2 - 2, H - y + 6)` of width `w + 4` and height
`f + 2`.  The label rectangle is centred on `x` and its lower edge is above the marker; the
centre of the text box is at the same `x`, half a unit below the centre of the label
rectangle. -/
theorem C13_marker_ops_in_order (self : gpx2pdf) (w : World) (page : PdfPage)
    (pFont : PdfFont) (fontMetrics : PdfFontMetrics)
    (hload : self.savePdfLoad (w.pdf self.pdfFileIn) = none)
    (hpage : self.savePdfPage (w.pdf self.pdfFileIn) = .ok page)
    (hfont : (w.pdf self.pdfFileIn).CreateFont "Helvetica" = .ok (some pFont))
    (hmetrics : pFont.GetFontMetrics = some fontMetrics)
    (hpaint : ∀ op, (w.pdf self.pdfFileIn).throws op = false) :
    (self.savePdf w).2.ops
      = setupOps self.nameFontSize
        ++ self.waypoints.flatMap (self.waypointOps page fontMetrics)
        ++ [PainterOp.FinishPage] ∧
    (∀ wp : waypoint, self.placeable page wp = false →
      self.waypointOps page fontMetrics wp = []) ∧
    (∀ (wp : waypoint) (px py : ℚ),
      self.convertCoordsToPixels wp.lat wp.lon (some 0) (some 0)
        = (g2pErr.SUCCESS, some px, some py) →
      self.placeable page wp = true →
      ∀ x y textWidth f H : ℚ,
      x = px * (page.width / self.xPixels) → y = py * (page.height / self.yPixels) →
      textWidth = fontMetrics.StringWidth self.nameFontSize wp.name →
      f = self.nameFontSize → H = page.height →
      self.waypointOps page fontMetrics wp =
        [ PainterOp.SetColor 1 1 0,
          PainterOp.Rectangle (x - textWidth / 2 - 2) (H - y + 6) (textWidth + 4) (f + 3),
          PainterOp.FillAndStroke,
          PainterOp.DrawLine x (H - y + 6) x (H - y),
          PainterOp.SetColor 1 1 1,
          PainterOp.Circle x (H - y) 3,
          PainterOp.FillAndStroke,
          PainterOp.DrawLine x (H - y + 2) x (H - y - 2),
          PainterOp.DrawLine (x + 2) (H - y) (x - 2) (H - y),
          PainterOp.SetColor 0 0 0,
          PainterOp.DrawMultiLineText (x - textWidth / 2 - 2) (H - y + 6) (textWidth + 4)
            (f + 2) wp.name EPdfAlignment.Center EPdfVerticalAlignment.Center ] ∧
      (PainterOp.Rectangle (x - textWidth / 2 - 2) (H - y + 6) (textWidth + 4)
          (f + 3)).box.map Rect.centre = some (x, H - y + 6 + (f + 3) / 2) ∧
      H - y < H - y + 6 ∧
      (PainterOp.DrawMultiLineText (x - textWidth / 2 - 2) (H - y + 6) (textWidth + 4)
          (f + 2) wp.name EPdfAlignment.Center EPdfVerticalAlignment.Center).box.map
          Rect.centre = some (x, H - y + 6 + (f + 3) / 2 - 1 / 2)) := by
  refine ⟨?_, ?_, ?_⟩
  · rw [savePdf_eq self w page pFont fontMetrics hload hpage hfont hmetrics hpaint]
    split <;> rfl
  · intro wp hnot
    unfold gpx2pdf.waypointOps
    split
    · rw [if_neg (by simp [hnot])]
    · rfl
  · intro wp px py hconv hplace x y textWidth f H hx hy hw hf hH
    subst hx hy hw hf hH
    refine ⟨?_, ?_, ?_, ?_⟩
    · simp only [gpx2pdf.waypointOps, hconv, hplace, if_true, markerOps]
    · simp only [PainterOp.box, Rect.centre, Option.map_some', Option.some.injEq, Prod.mk.injEq]
      exact ⟨by ring, trivial⟩
    · linarith
    · simp only [PainterOp.box, Rect.centre, Option.map_some', Option.some.injEq, Prod.mk.injEq]
      constructor <;> ring

/-- C13 as amended, an instance: the painter calls of `savePdf` on the example instance
holding `wpBad` and `wpOnPage`. -/
theorem C13_marker_ops_in_order_witness :
    ((exampleInstance [wpBad, wpOnPage]).savePdf (exampleWorld [])).2.ops
      = setupOps 8
        ++ [wpBad, wpOnPage].flatMap ((exampleInstance [wpBad, wpOnPage]).waypointOps
            { width := 200, height := 100 } exampleMetrics)
        ++ [PainterOp.FinishPage] :=
  (C13_marker_ops_in_order (exampleInstance [wpBad, wpOnPage]) (exampleWorld [])
    { width := 200, height := 100 } { GetFontMetrics := some exampleMetrics } exampleMetrics
    rfl rfl rfl rfl (fun _ => rfl)).1

/-! ### Double arithmetic -/

@[simp] theorem fl_zero : fl 0 = 0 := by simp [fl]

theorem fl_neg (q : ℚ) : fl (-q) = - fl q := by
  unfold fl
  by_cases h0 : q = 0
  · simp [h0]
  · have h0' : -q ≠ 0 := neg_ne_zero.mpr h0
    rw [if_neg h0, if_neg h0']
    simp only [Rat.neg_num, Int.natAbs_neg, Rat.neg_den]
    rcases lt_or_gt_of_ne h0 with h | h
    · have h1 : 0 < -q := by linarith
      have h2 : ¬ 0 < q := by linarith
      rw [if_pos h1, if_neg h2]; ring
    · have h1 : ¬ 0 < -q := by linarith
      rw [if_neg h1, if_pos h]; ring

theorem fl_of_parts (n d m : Nat) (e : Int) (hn : 0 < n) (hd : 0 < d) (hc : Nat.Coprime n d)
    (hp : flParts n d = (m, e)) : fl ((n : ℚ) / d) = (m : ℚ) * (2 : ℚ) ^ e := by
  have hd' : (d : ℚ) ≠ 0 := by exact_mod_cast hd.ne'
  have hpos : (0 : ℚ) < (n : ℚ) / d := by positivity
  have hnum : ((n : ℚ) / d).num = n := by
    have := Rat.num_div_eq_of_coprime (a := (n : ℤ)) (b := (d : ℤ)) (by exact_mod_cast hd)
      (by simpa [Nat.isCoprime_iff_coprime] using hc)
    simpa using this
  have hden : ((n : ℚ) / d).den = d := by
    have := Rat.den_div_eq_of_coprime (a := (n : ℤ)) (b := (d : ℤ)) (by exact_mod_cast hd)
      (by simpa [Nat.isCoprime_iff_coprime] using hc)
    exact_mod_cast this
  unfold fl
  rw [if_neg hpos.ne', if_pos hpos, hnum, hden]
  simp [hp]


theorem log2Aux_le (k : Nat) : ∀ (fuel n : Nat), n < 2 ^ (k + 1) → log2Aux fuel n ≤ k := by
  induction k with
  | zero =>
    intro fuel n hn
    cases fuel with
    | zero => simp [log2Aux]
    | succ f =>
      have : n < 2 := by simpa using hn
      simp [log2Aux, this]
  | succ k ih =>
    intro fuel n hn
    cases fuel with
    | zero => simp [log2Aux]
    | succ f =>
      unfold log2Aux
      split
      · omega
      · have hhalf : n / 2 < 2 ^ (k + 1) := by
          have : 2 ^ (k + 1 + 1) = 2 * 2 ^ (k + 1) := by ring
          omega
        have := ih f (n / 2) hhalf
        omega

theorem roundHalfEven_one (n : Nat) : roundHalfEven n 1 = n := by
  simp [roundHalfEven, Nat.mod_one]

theorem fl_natCast (n : Nat) (h : n < 2 ^ 53) : fl (n : ℚ) = n := by
  by_cases h0 : n = 0
  · simp [h0]
  have hpos : (0 : ℚ) < n := by exact_mod_cast Nat.pos_of_ne_zero h0
  have hL : log2Aux n n ≤ 52 := log2Aux_le 52 n n h
  have h1 : log2Aux 1 1 = 0 := by decide
  have hfl : floorLog2 n 1 ≤ 52 := by
    unfold floorLog2
    simp only [h1]
    split
    · split <;> omega
    · split <;> omega
  unfold fl
  rw [if_neg hpos.ne', if_pos hpos]
  simp only [Rat.num_natCast, Int.natAbs_ofNat, Rat.den_natCast, flParts]
  by_cases he : 0 ≤ floorLog2 n 1 - 52
  · have he0 : floorLog2 n 1 - 52 = 0 := by omega
    rw [if_pos he, he0]
    simp [roundHalfEven_one]
  · rw [if_neg he, roundHalfEven_one]
    have hneg : floorLog2 n 1 - 52 = -(((-(floorLog2 n 1 - 52)).toNat : Nat) : Int) := by
      rw [Int.toNat_of_nonneg (by omega)]; ring
    generalize (-(floorLog2 n 1 - 52)).toNat = t at hneg
    rw [hneg]
    push_cast
    rw [zpow_neg, zpow_natCast]
    field_simp

/-- One turn of the loop in double arithmetic, read through `waypointOpsFl`,
`placeableFl` and `convertFailsFl`. -/
theorem savePdfStepFl_eq (self : gpx2pdf) (doc : PdfMemDocument) (page : PdfPage)
    (fontMetrics : PdfFontMetrics) (s : LoopState) (wp : waypoint) :
    self.savePdfStepFl doc page fontMetrics s wp =
      (paint doc s.ops (self.waypointOpsFl page fontMetrics wp)).map (fun ops =>
        { ops := ops,
          waypointCount := s.waypointCount + (if self.placeableFl page wp then 1 else 0),
          convertError := s.convertError || self.convertFailsFl wp }) := by
  rcases hconv : self.convertCoordsToPixelsFl wp.lat wp.lon (some 0) (some 0) with ⟨code, x, y⟩
  cases code <;> cases x <;> cases y <;>
    simp [gpx2pdf.savePdfStepFl, gpx2pdf.waypointOpsFl, gpx2pdf.placeableFl,
      gpx2pdf.convertFailsFl, hconv, paint_nil, toPdfUnitsFl]
  rename_i px py
  by_cases hx : self.xPixels = 0
  · simp [hx, fdivFl, paint_nil]
  · by_cases hy : self.yPixels = 0
    · simp [hy, fdivFl, paint_nil]
    · have hx' : (self.xPixels : ℚ) ≠ 0 := Int.cast_ne_zero.mpr hx
      have hy' : (self.yPixels : ℚ) ≠ 0 := Int.cast_ne_zero.mpr hy
      simp only [fdivFl, if_neg hx', if_neg hy', onPage]
      by_cases hon : 0 ≤ fl (fl (px * page.width) / self.xPixels) ∧
          fl (fl (px * page.width) / self.xPixels) ≤ page.width ∧
          0 ≤ fl (fl (py * page.height) / self.yPixels) ∧
          fl (fl (py * page.height) / self.yPixels) ≤ page.height
      · simp [hx, hy, hon]
        cases paint doc s.ops _ <;> rfl
      · simp [hx, hy, hon, paint_nil]

/-- The loop over a list of waypoints in double arithmetic, read through `waypointOpsFl`,
`placeableFl` and `convertFailsFl`. -/
theorem savePdfLoopFl_eq (self : gpx2pdf) (doc : PdfMemDocument) (page : PdfPage)
    (fontMetrics : PdfFontMetrics) (wps : List waypoint) (s : LoopState) :
    self.savePdfLoopFl doc page fontMetrics s wps =
      (paint doc s.ops (wps.flatMap (self.waypointOpsFl page fontMetrics))).map (fun ops =>
        { ops := ops,
          waypointCount := s.waypointCount + (wps.countP (self.placeableFl page) : Nat),
          convertError := s.convertError || wps.any self.convertFailsFl }) := by
  induction wps generalizing s with
  | nil => simp [gpx2pdf.savePdfLoopFl, paint_nil]
  | cons wp rest ih =>
    simp only [gpx2pdf.savePdfLoopFl, savePdfStepFl_eq, List.flatMap_cons, paint_append]
    cases hp : paint doc s.ops (self.waypointOpsFl page fontMetrics wp) with
    | none => simp
    | some ops =>
      simp only [Option.map_some', Option.some_bind, ih, List.countP_cons, List.any_cons]
      cases paint doc ops (rest.flatMap (self.waypointOpsFl page fontMetrics)) with
      | none => simp
      | some ops2 =>
        simp only [Option.map_some', Option.some.injEq, LoopState.mk.injEq, true_and,
          Bool.or_assoc, and_true]
        by_cases hpl : self.placeableFl page wp = true
        · simp [hpl]; ring
        · simp [hpl]

/-- The painting block in double arithmetic when the font and its metrics are obtained
and no painter call throws. -/
theorem savePdfPaintFl_eq (self : gpx2pdf) (doc : PdfMemDocument) (page : PdfPage)
    (pFont : PdfFont) (fontMetrics : PdfFontMetrics)
    (hfont : doc.CreateFont "Helvetica" = .ok (some pFont))
    (hmetrics : pFont.GetFontMetrics = some fontMetrics)
    (hpaint : ∀ op, doc.throws op = false) :
    self.savePdfPaintFl doc page = some
      { ops := setupOps self.nameFontSize
          ++ self.waypoints.flatMap (self.waypointOpsFl page fontMetrics)
          ++ [PainterOp.FinishPage],
        waypointCount := (self.waypoints.countP (self.placeableFl page) : Nat),
        convertError := self.waypoints.any self.convertFailsFl } := by
  simp [gpx2pdf.savePdfPaintFl, hfont, hmetrics, paint_of_no_throw doc hpaint, savePdfLoopFl_eq,
    setupOps]

/-- The result of `savePdf` in double arithmetic once the document is loaded, the page
and the font are obtained and no painter call throws. -/
theorem savePdfFl_eq (self : gpx2pdf) (w : World) (page : PdfPage)
    (pFont : PdfFont) (fontMetrics : PdfFontMetrics)
    (hload : self.savePdfLoad (w.pdf self.pdfFileIn) = none)
    (hpage : self.savePdfPage (w.pdf self.pdfFileIn) = .ok page)
    (hfont : (w.pdf self.pdfFileIn).CreateFont "Helvetica" = .ok (some pFont))
    (hmetrics : pFont.GetFontMetrics = some fontMetrics)
    (hpaint : ∀ op, (w.pdf self.pdfFileIn).throws op = false) :
    self.savePdfFl w =
      if self.waypoints.countP (self.placeableFl page) = 0 then
        (g2pErr.INVALID_ARGUMENT,
          { ops := setupOps self.nameFontSize
              ++ self.waypoints.flatMap (self.waypointOpsFl page fontMetrics)
              ++ [PainterOp.FinishPage],
            waypointCount := (self.waypoints.countP (self.placeableFl page) : Nat),
            convertError := self.waypoints.any self.convertFailsFl,
            writeCalled := false, written := false })
      else
        (if (w.pdf self.pdfFileIn).Write self.pdfFileOut then g2pErr.SUCCESS else g2pErr.ERROR,
          { ops := setupOps self.nameFontSize
              ++ self.waypoints.flatMap (self.waypointOpsFl page fontMetrics)
              ++ [PainterOp.FinishPage],
            waypointCount := (self.waypoints.countP (self.placeableFl page) : Nat),
            convertError := self.waypoints.any self.convertFailsFl,
            writeCalled := true,
            written := (w.pdf self.pdfFileIn).Write self.pdfFileOut }) := by
  simp only [gpx2pdf.savePdfFl, hload, hpage,
    savePdfPaintFl_eq self _ page pFont fontMetrics hfont hmetrics hpaint]
  by_cases h0 : self.waypoints.countP (self.placeableFl page) = 0
  · simp [h0]
  · have hpos : ¬ ((self.waypoints.countP (self.placeableFl page) : Nat) : Int) ≤ 0 := by
      have : 0 < self.waypoints.countP (self.placeableFl page) := Nat.pos_of_ne_zero h0
      omega
    simp only [if_neg h0, if_neg hpos]
    cases (w.pdf self.pdfFileIn).Write self.pdfFileOut <;> simp

theorem fl_49 : fl 49 = 49 := by exact_mod_cast fl_natCast 49 (by norm_num)

theorem fl_inv_49 : fl (1 / 49) = 5882252574524729 / 288230376151711744 := by
  have h := fl_of_parts 1 49 5882252574524729 (-58) (by decide) (by decide) (by decide)
    (by decide)
  norm_num at h
  norm_num
  exact h

theorem fl_49_times_inv_49 :
    fl (288230376151711721 / 288230376151711744) = 9007199254740991 / 9007199254740992 := by
  have h := fl_of_parts 288230376151711721 288230376151711744 9007199254740991 (-53)
    (by decide) (by decide) (by decide) (by decide)
  norm_num at h
  exact h

/-- C2 (the claim as stated fails): with the affine `[0,49,0,0,0,1]` (determinant 49) and
the world point `(49, 0)` the formula of the claim gives the column 1, in exact arithmetic
and when each of its operations is rounded to a double.  The code multiplies by the
rounded reciprocal of the determinant instead of dividing and returns the column
`1 - 2^-53` (printed 0.9999999999999999), which is not 1. -/
theorem C2_rounded_reciprocal_is_not_division :
    (boundInstance reciprocalAffine identityTF).convertCoordsToPixelsFl 49 0 (some 0) (some 0)
      = (g2pErr.SUCCESS, some (1 - 1 / 2 ^ 53), some 0) ∧
    ((49 - reciprocalAffine 0) * reciprocalAffine 5
        - (0 - reciprocalAffine 3) * reciprocalAffine 4)
      / (reciprocalAffine 1 * reciprocalAffine 5 - reciprocalAffine 2 * reciprocalAffine 4)
      = (1 : ℚ) ∧
    fl (fl (fl (fl (49 - reciprocalAffine 0) * reciprocalAffine 5)
        - fl (fl (0 - reciprocalAffine 3) * reciprocalAffine 4))
      / fl (fl (reciprocalAffine 1 * reciprocalAffine 5)
        - fl (reciprocalAffine 2 * reciprocalAffine 4))) = 1 ∧
    (1 - 1 / 2 ^ 53 : ℚ) ≠ 1 := by
  have h1 : fl 1 = 1 := by exact_mod_cast fl_natCast 1 (by norm_num)
  refine ⟨?_, ?_, ?_, ?_⟩
  · simp only [gpx2pdf.convertCoordsToPixelsFl, boundInstance, gpx2pdf.new, identityTF,
      reciprocalAffine, affine_0, affine_1, affine_2, affine_3, affine_4, affine_5, fdivFl,
      fmulFl]
    norm_num [fl_49, fl_inv_49, fl_49_times_inv_49]
  · norm_num [reciprocalAffine]
  · norm_num [reciprocalAffine, fl_49, h1]
  · norm_num

theorem fl_neg_natCast (n : Nat) (h : n < 2 ^ 53) : fl (-(n : ℚ)) = -(n : ℚ) := by
  rw [fl_neg, fl_natCast n h]

/-- The pixel of the example scenario in double arithmetic. -/
theorem utm_convertFl (self : gpx2pdf) (tf : OGRCoordinateTransformation) (lat lon : ℚ)
    (x y : Option ℚ)
    (hbound : self.coordTF = some tf)
    (htransform : tf.Transform lat lon = some (500500, 4499500))
    (haffine : self.adfGeoTransform = utmAffine) :
    self.convertCoordsToPixelsFl lat lon x y = (g2pErr.SUCCESS, some 50, some 50) := by
  have h500 : fl 500 = 500 := by exact_mod_cast fl_natCast 500 (by norm_num)
  have hm500 : fl (-500) = -500 := by exact_mod_cast fl_neg_natCast 500 (by norm_num)
  have hm5000 : fl (-5000) = -5000 := by exact_mod_cast fl_neg_natCast 5000 (by norm_num)
  have hm100 : fl (-100) = -100 := by exact_mod_cast fl_neg_natCast 100 (by norm_num)
  have hinv : fl (1 / 100) = 5764607523034235 / 576460752303423488 := by
    have h := fl_of_parts 1 100 5764607523034235 (-59) (by decide) (by decide) (by decide)
      (by decide)
    norm_num at h
    norm_num
    exact h
  have hprod : fl (3602879701896396875 / 72057594037927936) = 50 := by
    have h := fl_of_parts 3602879701896396875 72057594037927936 7036874417766400 (-47)
      (by decide) (by decide) (by decide) (by decide)
    norm_num at h
    exact h
  simp only [gpx2pdf.convertCoordsToPixelsFl, hbound, htransform, haffine, utmAffine,
    affine_0, affine_1, affine_2, affine_3, affine_4, affine_5, fdivFl, fmulFl]
  norm_num [fl_neg, h500, hm500, hm5000, hm100, hinv, hprod]

/-- C2 as amended: when a transformation is bound and maps `(lat, lon)` to the world
point `(wx, wy)` and the determinant is not zero, `convertCoordsToPixels` returns `SUCCESS`
and, in exact arithmetic, exactly `col = ((wx - c0)*c5 - (wy - c3)*c4) / det` and
`row = ((wx - c0)*(-c2) + (wy - c3)*c1) / det`, nothing rounded to whole pixels.  In double
arithmetic its result is the rounded product of the numerator and the rounded reciprocal
`1 / det`, each operation rounded, not the quotient.  With the affine
`[500000,10,0,4500000,0,-10]` and the world point `(500500, 4499500)` the result is
`(50, 50)` in exact and in double arithmetic. -/
theorem C2_pixel_formula_exact_arithmetic (self : gpx2pdf) (tf : OGRCoordinateTransformation)
    (lat lon wx wy : ℚ) (x y : Option ℚ)
    (hbound : self.coordTF = some tf)
    (htransform : tf.Transform lat lon = some (wx, wy))
    (hdet : self.adfGeoTransform 1 * self.adfGeoTransform 5
      - self.adfGeoTransform 2 * self.adfGeoTransform 4 ≠ 0) :
    self.convertCoordsToPixels lat lon x y =
      (g2pErr.SUCCESS,
        some (((wx - self.adfGeoTransform 0) * self.adfGeoTransform 5
            - (wy - self.adfGeoTransform 3) * self.adfGeoTransform 4)
          / (self.adfGeoTransform 1 * self.adfGeoTransform 5
            - self.adfGeoTransform 2 * self.adfGeoTransform 4)),
        some (((wx - self.adfGeoTransform 0) * (-self.adfGeoTransform 2)
            + (wy - self.adfGeoTransform 3) * self.adfGeoTransform 1)
          / (self.adfGeoTransform 1 * self.adfGeoTransform 5
            - self.adfGeoTransform 2 * self.adfGeoTransform 4))) ∧
    (fl (fl (self.adfGeoTransform 1 * self.adfGeoTransform 5)
        - fl (self.adfGeoTransform 2 * self.adfGeoTransform 4)) ≠ 0 →
      self.convertCoordsToPixelsFl lat lon x y =
        (g2pErr.SUCCESS,
          some (fl (fl (fl (fl (wx - self.adfGeoTransform 0) * self.adfGeoTransform 5)
              + fl (fl (fl (wy - self.adfGeoTransform 3) * -1) * self.adfGeoTransform 4))
            * fl (1 / fl (fl (self.adfGeoTransform 1 * self.adfGeoTransform 5)
              - fl (self.adfGeoTransform 2 * self.adfGeoTransform 4))))),
          some (fl (fl (fl (fl (fl (wx - self.adfGeoTransform 0) * -1) * self.adfGeoTransform 2)
              + fl (fl (wy - self.adfGeoTransform 3) * self.adfGeoTransform 1))
            * fl (1 / fl (fl (self.adfGeoTransform 1 * self.adfGeoTransform 5)
              - fl (self.adfGeoTransform 2 * self.adfGeoTransform 4))))))) ∧
    (self.adfGeoTransform = utmAffine → wx = 500500 → wy = 4499500 →
      self.convertCoordsToPixels lat lon x y = (g2pErr.SUCCESS, some 50, some 50) ∧
      self.convertCoordsToPixelsFl lat lon x y = (g2pErr.SUCCESS, some 50, some 50)) := by
  have hgen : self.convertCoordsToPixels lat lon x y =
      (g2pErr.SUCCESS,
        some (((wx - self.adfGeoTransform 0) * self.adfGeoTransform 5
            - (wy - self.adfGeoTransform 3) * self.adfGeoTransform 4)
          / (self.adfGeoTransform 1 * self.adfGeoTransform 5
            - self.adfGeoTransform 2 * self.adfGeoTransform 4)),
        some (((wx - self.adfGeoTransform 0) * (-self.adfGeoTransform 2)
            + (wy - self.adfGeoTransform 3) * self.adfGeoTransform 1)
          / (self.adfGeoTransform 1 * self.adfGeoTransform 5
            - self.adfGeoTransform 2 * self.adfGeoTransform 4))) := by
    rw [convertCoordsToPixels_of_det self tf lat lon wx wy x y hbound htransform hdet]
    refine Prod.ext rfl (Prod.ext ?_ ?_)
    · show some _ = some _
      congr 1
      field_simp
      ring
    · show some _ = some _
      congr 1
      field_simp
      ring
  refine ⟨hgen, ?_, ?_⟩
  · intro hdetFl
    simp only [gpx2pdf.convertCoordsToPixelsFl, hbound, htransform, fdivFl, if_neg hdetFl, fmulFl,
      Option.map_some']
  · intro hg hwx hwy
    subst hwx hwy
    refine ⟨?_, utm_convertFl self tf lat lon x y hbound htransform hg⟩
    rw [hgen, hg]
    norm_num [utmAffine]

/-- C2 as amended, an instance: a bound transformation takes `(40, -75)` to the world
point `(500500, 4499500)`, and with the affine `[500000,10,0,4500000,0,-10]` the pixel is
`(50, 50)` in exact and in double arithmetic. -/
theorem C2_pixel_formula_exact_arithmetic_witness :
    (boundInstance utmAffine ⟨fun _ _ => some (500500, 4499500)⟩).convertCoordsToPixels
      40 (-75) (some 0) (some 0) = (g2pErr.SUCCESS, some 50, some 50) ∧
    (boundInstance utmAffine ⟨fun _ _ => some (500500, 4499500)⟩).convertCoordsToPixelsFl
      40 (-75) (some 0) (some 0) = (g2pErr.SUCCESS, some 50, some 50) :=
  (C2_pixel_formula_exact_arithmetic (boundInstance utmAffine ⟨fun _ _ => some (500500, 4499500)⟩)
    ⟨fun _ _ => some (500500, 4499500)⟩ 40 (-75) 500500 4499500 (some 0) (some 0)
    rfl rfl (by norm_num [boundInstance, gpx2pdf.new, utmAffine])).2.2 rfl rfl rfl

theorem fl_edge_product : fl (612624059176883013 / 8796093022208) = 4786125462319399 / 68719476736 := by
  have h := fl_of_parts 612624059176883013 8796093022208 4786125462319399 (-36)
    (by decide) (by decide) (by decide) (by decide)
  norm_num at h
  exact h

theorem fl_edge_quotient : fl (4786125462319399 / 8040178778112) = 2618051534943945 / 4398046511104 := by
  have h := fl_of_parts 4786125462319399 8040178778112 5236103069887890 (-43)
    (by decide) (by decide) (by decide) (by decide)
  norm_num at h
  exact h

theorem fl_edge_scale : fl (5236103069887889 / 1029142883598336) = 5728386264492733 / 1125899906842624 := by
  have h := fl_of_parts 5236103069887889 1029142883598336 5728386264492733 (-50)
    (by decide) (by decide) (by decide) (by decide)
  norm_num at h
  exact h

theorem fl_edge_scaled : fl (670221192945649761 / 1125899906842624) = 5236103069887889 / 8796093022208 := by
  have h := fl_of_parts 670221192945649761 1125899906842624 5236103069887889 (-43)
    (by decide) (by decide) (by decide) (by decide)
  norm_num at h
  exact h

theorem fl_row_product : fl (185133568861667325 / 4398046511104) = 84189 / 2 := by
  have h := fl_of_parts 185133568861667325 4398046511104 5785424026927104 (-37)
    (by decide) (by decide) (by decide) (by decide)
  norm_num at h
  exact h

theorem fl_row_quotient : fl (84189 / 200) = 7405342754466693 / 17592186044416 := by
  have h := fl_of_parts 84189 200 7405342754466693 (-44)
    (by decide) (by decide) (by decide) (by decide)
  norm_num at h
  exact h

theorem fl_row_scale : fl (7405342754466693 / 879609302220800) = 1184854840714671 / 140737488355328 := by
  have h := fl_of_parts 7405342754466693 879609302220800 4739419362858684 (-49)
    (by decide) (by decide) (by decide) (by decide)
  norm_num at h
  exact h

theorem fl_row_scaled : fl (29621371017866775 / 70368744177664) = 3702671377233347 / 8796093022208 := by
  have h := fl_of_parts 29621371017866775 70368744177664 7405342754466694 (-44)
    (by decide) (by decide) (by decide) (by decide)
  norm_num at h
  exact h

theorem edge_convertFl :
    edgeInstance.convertCoordsToPixelsFl wpEdge.lat wpEdge.lon (some 0) (some 0)
      = (g2pErr.SUCCESS, some 117, some 50) := by
  have h1 : fl 1 = 1 := by exact_mod_cast fl_natCast 1 (by norm_num)
  have h117 : fl 117 = 117 := by exact_mod_cast fl_natCast 117 (by norm_num)
  have h50 : fl 50 = 50 := by exact_mod_cast fl_natCast 50 (by norm_num)
  simp only [gpx2pdf.convertCoordsToPixelsFl, edgeInstance, boundInstance, gpx2pdf.new,
    identityTF, unitAffine, wpEdge, affine_0, affine_1, affine_2, affine_3, affine_4, affine_5,
    fdivFl, fmulFl]
  norm_num [fl_neg, h1, h117, h50]

theorem edge_not_placeableFl :
    edgeInstance.placeableFl { width := a4Width, height := a4Height } wpEdge = false := by
  simp only [gpx2pdf.placeableFl, edge_convertFl]
  norm_num [edgeInstance, a4Width, a4Height, fl_edge_product, fl_edge_quotient, fl_row_product,
    fl_row_quotient]

/-- C4 (the claim as stated fails): a raster 117 pixels wide on an A4 page of width
595.276, and a waypoint converted to the pixel `(117, 50)`.  The `unitX` of the claim,
`px * (pageWidth / xPixels)`, is the page width itself in exact arithmetic and also when
its two operations are rounded to doubles, and `unitY` lies inside the page, so the claim
says the waypoint is drawn.  The code computes `(px * pageWidth) / xPixels` in doubles,
gets `pageWidth + 2^-43` (printed 595.2760000000001), which is above the page width, and
draws nothing: `savePdf` returns `INVALID_ARGUMENT` with no waypoint counted. -/
theorem C4_edge_pixel_rounded_off_page :
    edgeInstance.convertCoordsToPixelsFl wpEdge.lat wpEdge.lon (some 0) (some 0)
      = (g2pErr.SUCCESS, some 117, some 50) ∧
    (0 ≤ 117 * (a4Width / 117) ∧ 117 * (a4Width / 117) ≤ a4Width ∧
      0 ≤ 50 * (a4Height / 100) ∧ 50 * (a4Height / 100) ≤ a4Height) ∧
    (0 ≤ fl (117 * fl (a4Width / 117)) ∧ fl (117 * fl (a4Width / 117)) ≤ a4Width ∧
      0 ≤ fl (50 * fl (a4Height / 100)) ∧ fl (50 * fl (a4Height / 100)) ≤ a4Height) ∧
    fl (fl (117 * a4Width) / 117) = a4Width + 1 / 2 ^ 43 ∧
    a4Width < fl (fl (117 * a4Width) / 117) ∧
    edgeInstance.savePdfFl a4World =
      (g2pErr.INVALID_ARGUMENT,
        { ops := setupOps 8 ++ [PainterOp.FinishPage], waypointCount := 0,
          convertError := false, writeCalled := false, written := false }) := by
  refine ⟨edge_convertFl, ?_, ?_, ?_, ?_, ?_⟩
  · norm_num [a4Width, a4Height]
  · norm_num [a4Width, a4Height, fl_edge_scale, fl_edge_scaled, fl_row_scale, fl_row_scaled]
  · norm_num [a4Width, fl_edge_product, fl_edge_quotient]
  · norm_num [a4Width, fl_edge_product, fl_edge_quotient]
  · have hsave := savePdfFl_eq edgeInstance a4World { width := a4Width, height := a4Height }
      { GetFontMetrics := some exampleMetrics } exampleMetrics rfl rfl rfl rfl (fun _ => rfl)
    have hws : edgeInstance.waypoints = [wpEdge] := rfl
    have hops : edgeInstance.waypointOpsFl { width := a4Width, height := a4Height }
        exampleMetrics wpEdge = [] := by
      simp only [gpx2pdf.waypointOpsFl, edge_convertFl, edge_not_placeableFl]
      rfl
    have hfail : edgeInstance.convertFailsFl wpEdge = false := by
      simp [gpx2pdf.convertFailsFl, edge_convertFl]
    have hcount : [wpEdge].countP
        (edgeInstance.placeableFl { width := a4Width, height := a4Height }) = 0 := by
      simp [edge_not_placeableFl]
    have hsize : edgeInstance.nameFontSize = 8 := rfl
    rw [hsave, hws, if_pos hcount, hcount]
    simp [hops, hfail, hsize]

/-- C4 as amended: when the document is loaded, the page, the font and its metrics are
obtained and no painter call throws, `savePdf` in double arithmetic issues the set-up
calls, the calls of the stored waypoints in their order and `FinishPage`, counts the
waypoints that are placeable and sets `convertError` exactly when a conversion fails.  For
a waypoint converted to the finite pixel `(px, py)`, with nonzero pixel counts and with
`unitX = (px * pageWidth) / xPixels` and `unitY = (py * pageHeight) / yPixels` as the code
computes them (the product first, each operation rounded to a double), the waypoint is
drawn and counted when `0 ≤ unitX ≤ pageWidth` and `0 ≤ unitY ≤ pageHeight` for these
computed values (bounds included): its calls are those of the marker at `(unitX, unitY)`,
the circle at `(unitX, pageHeight - unitY)` among them; otherwise it has no calls and is
not counted; in neither case `convertError` is set for it.  The pixel `(0, 0)` is on the
page. -/
theorem C4_on_page_double_arithmetic (self : gpx2pdf) (w : World) (page : PdfPage)
    (pFont : PdfFont) (fontMetrics : PdfFontMetrics)
    (hload : self.savePdfLoad (w.pdf self.pdfFileIn) = none)
    (hpage : self.savePdfPage (w.pdf self.pdfFileIn) = .ok page)
    (hfont : (w.pdf self.pdfFileIn).CreateFont "Helvetica" = .ok (some pFont))
    (hmetrics : pFont.GetFontMetrics = some fontMetrics)
    (hpaint : ∀ op, (w.pdf self.pdfFileIn).throws op = false) :
    (self.savePdfFl w).2.ops
      = setupOps self.nameFontSize
        ++ self.waypoints.flatMap (self.waypointOpsFl page fontMetrics)
        ++ [PainterOp.FinishPage] ∧
    (self.savePdfFl w).2.waypointCount
      = (self.waypoints.countP (self.placeableFl page) : Nat) ∧
    (self.savePdfFl w).2.convertError = self.waypoints.any self.convertFailsFl ∧
    (∀ (wp : waypoint) (px py : ℚ),
      self.convertCoordsToPixelsFl wp.lat wp.lon (some 0) (some 0)
        = (g2pErr.SUCCESS, some px, some py) →
      self.xPixels ≠ 0 → self.yPixels ≠ 0 →
      ∀ unitX unitY : ℚ,
      unitX = fl (fl (px * page.width) / self.xPixels) →
      unitY = fl (fl (py * page.height) / self.yPixels) →
      self.convertFailsFl wp = false ∧
      ((0 ≤ unitX ∧ unitX ≤ page.width ∧ 0 ≤ unitY ∧ unitY ≤ page.height) →
        self.placeableFl page wp = true ∧
        self.waypointOpsFl page fontMetrics wp
          = markerOpsFl self.nameFontSize page.height unitX unitY
              (fontMetrics.StringWidth self.nameFontSize wp.name) wp.name ∧
        PainterOp.Circle unitX (fl (page.height - unitY)) 3
          ∈ self.waypointOpsFl page fontMetrics wp) ∧
      (¬ (0 ≤ unitX ∧ unitX ≤ page.width ∧ 0 ≤ unitY ∧ unitY ≤ page.height) →
        self.placeableFl page wp = false ∧
        self.waypointOpsFl page fontMetrics wp = [])) ∧
    (∀ wp : waypoint,
      self.convertCoordsToPixelsFl wp.lat wp.lon (some 0) (some 0)
        = (g2pErr.SUCCESS, some 0, some 0) →
      self.xPixels ≠ 0 → self.yPixels ≠ 0 → 0 ≤ page.width → 0 ≤ page.height →
      self.placeableFl page wp = true) := by
  have hsave := savePdfFl_eq self w page pFont fontMetrics hload hpage hfont hmetrics hpaint
  refine ⟨?_, ?_, ?_, ?_, ?_⟩
  · rw [hsave]; split <;> rfl
  · rw [hsave]; split <;> rfl
  · rw [hsave]; split <;> rfl
  · intro wp px py hconv hx hy unitX unitY hux huy
    subst hux huy
    refine ⟨?_, ?_, ?_⟩
    · simp [gpx2pdf.convertFailsFl, hconv]
    · intro hon
      have hpl : self.placeableFl page wp = true := by
        simp only [gpx2pdf.placeableFl, hconv]
        simpa [hx, hy] using hon
      refine ⟨hpl, ?_, ?_⟩
      · simp only [gpx2pdf.waypointOpsFl, hconv, hpl, if_true]
      · simp only [gpx2pdf.waypointOpsFl, hconv, hpl, if_true, markerOpsFl]
        simp
    · intro hoff
      have hpl : self.placeableFl page wp = false := by
        simp only [gpx2pdf.placeableFl, hconv]
        simpa [hx, hy] using hoff
      refine ⟨hpl, ?_⟩
      simp [gpx2pdf.waypointOpsFl, hconv, hpl]
  · intro wp hconv hx hy hw hh
    simp only [gpx2pdf.placeableFl, hconv]
    simp [hx, hy, hw, hh]

/-- C4 as amended, an instance: the painter calls of `savePdf` in double arithmetic on the
example instance holding `wpBad` and `wpOnPage`. -/
theorem C4_on_page_double_arithmetic_witness :
    ((exampleInstance [wpBad, wpOnPage]).savePdfFl (exampleWorld [])).2.ops
      = setupOps 8
        ++ [wpBad, wpOnPage].flatMap ((exampleInstance [wpBad, wpOnPage]).waypointOpsFl
            { width := 200, height := 100 } exampleMetrics)
        ++ [PainterOp.FinishPage] :=
  (C4_on_page_double_arithmetic (exampleInstance [wpBad, wpOnPage]) (exampleWorld [])
    { width := 200, height := 100 } { GetFontMetrics := some exampleMetrics } exampleMetrics
    rfl rfl rfl rfl (fun _ => rfl)).1

/-! ### Names -/

theorem char_valid (c : Char) : c.toNat < 0xD800 ∨ (0xDFFF < c.toNat ∧ c.toNat < 0x110000) :=
  c.valid

theorem decodeUtf16_cons_plain (u : Nat) (rest : List Nat) (hu : ¬ (0xD800 ≤ u ∧ u < 0xE000)) :
    decodeUtf16 (u :: rest) = Char.ofNat u :: decodeUtf16 rest := by
  cases rest with
  | nil => simp [decodeUtf16, hu]
  | cons v r =>
    have h1 : ¬ (0xD800 ≤ u ∧ u < 0xDC00 ∧ 0xDC00 ≤ v ∧ v < 0xE000) := by
      intro h; exact hu ⟨h.1, by omega⟩
    simp only [decodeUtf16, if_neg h1, if_neg hu]

theorem decodeUtf16_utf16 (c : Char) (rest : List Nat) :
    decodeUtf16 (utf16 c ++ rest) = c :: decodeUtf16 rest := by
  have hv := char_valid c
  unfold utf16
  split
  · rename_i hb
    have hu : ¬ (0xD800 ≤ c.toNat ∧ c.toNat < 0xE000) := by omega
    rw [List.singleton_append, decodeUtf16_cons_plain _ _ hu, Char.ofNat_toNat]
  · rename_i hb
    have hpair : 0xD800 ≤ 0xD800 + (c.toNat - 0x10000) / 0x400 ∧
        0xD800 + (c.toNat - 0x10000) / 0x400 < 0xDC00 ∧
        0xDC00 ≤ 0xDC00 + (c.toNat - 0x10000) % 0x400 ∧
        0xDC00 + (c.toNat - 0x10000) % 0x400 < 0xE000 := by omega
    have hcode : 0x10000 + (0xD800 + (c.toNat - 0x10000) / 0x400 - 0xD800) * 0x400
        + (0xDC00 + (c.toNat - 0x10000) % 0x400 - 0xDC00) = c.toNat := by omega
    simp only [List.cons_append, List.nil_append, decodeUtf16, if_pos hpair, hcode,
      Char.ofNat_toNat]
    rfl

theorem decodeUtf16_flatMap (l : List Char) : decodeUtf16 (l.flatMap utf16) = l := by
  induction l with
  | nil => rfl
  | cons c cs ih => rw [List.flatMap_cons, decodeUtf16_utf16, ih]

theorem toStdString_fromText (text : String) :
    (QString.fromText text).toStdString = text := by
  simp [QString.toStdString, QString.fromText, decodeUtf16_flatMap]

/-- The name that the loop body of `loadGpx` stores for a picked name. -/
theorem cut_eq_truncUnits (maxNameLength : Int) (pick : String) :
    (if maxNameLength ≥ 0 then (QString.fromText pick).left maxNameLength
      else QString.fromText pick).toStdString = truncUnits maxNameLength pick := by
  unfold truncUnits
  by_cases hn : 0 ≤ maxNameLength
  · rw [if_pos hn, if_pos hn]
    unfold QString.left
    by_cases hlen : ((QString.fromText pick).units.length : Int) ≤ maxNameLength
    · rw [if_pos (Or.inr hlen)]
      have hle : (pick.data.flatMap utf16).length ≤ maxNameLength.toNat := by
        have : (QString.fromText pick).units.length = (pick.data.flatMap utf16).length := rfl
        omega
      rw [List.take_of_length_le hle]
      rfl
    · have hneg : ¬ (maxNameLength < 0 ∨
          ((QString.fromText pick).units.length : Int) ≤ maxNameLength) := by
        intro h
        rcases h with h | h
        · omega
        · exact hlen h
      rw [if_neg hneg]
      rfl
  · rw [if_neg hn, if_neg hn, toStdString_fromText]

/-- One turn of the loop of `loadGpx` adds the waypoint of `storedWaypoint`, if any. -/
theorem loadGpxStep_eq (self : gpx2pdf) (waypoints : List waypoint) (xmlWaypoint : XmlWaypoint) :
    self.loadGpxStep waypoints xmlWaypoint
      = waypoints ++ (self.storedWaypoint xmlWaypoint).toList := by
  rcases xmlWaypoint with ⟨lat, lon, name, c, s⟩
  cases lat <;> cases lon <;> cases name <;>
    simp [gpx2pdf.loadGpxStep, gpx2pdf.storedWaypoint]
  rename_i lat lon d
  rw [← cut_eq_truncUnits]
  cases hg : self.useGeocacheName <;> cases hs : self.useGsakSmartName <;>
    cases c <;> cases s <;> simp [pickName]

theorem foldl_loadGpxStep (self : gpx2pdf) (xmlWaypoints : List XmlWaypoint)
    (waypoints : List waypoint) :
    xmlWaypoints.foldl self.loadGpxStep waypoints
      = waypoints ++ xmlWaypoints.filterMap self.storedWaypoint := by
  induction xmlWaypoints generalizing waypoints with
  | nil => simp
  | cons x xs ih =>
    rw [List.foldl_cons, ih, loadGpxStep_eq, List.filterMap_cons]
    cases self.storedWaypoint x <;> simp

theorem flatMap_utf16_of_bmp (l : List Char) (h : ∀ c ∈ l, c.toNat < 0x10000) :
    l.flatMap utf16 = l.map Char.toNat := by
  induction l with
  | nil => rfl
  | cons c cs ih =>
    have hc : c.toNat < 0x10000 := h c (List.mem_cons_self _ _)
    rw [List.flatMap_cons, List.map_cons, ih (fun x hx => h x (List.mem_cons_of_mem _ hx))]
    simp [utf16, hc]

theorem truncUnits_of_bmp (maxNameLength : Int) (pick : String)
    (hn : 0 ≤ maxNameLength) (h : ∀ c ∈ pick.data, c.toNat < 0x10000) :
    truncUnits maxNameLength pick = truncName maxNameLength pick := by
  unfold truncUnits truncName
  rw [if_pos hn, if_pos hn, flatMap_utf16_of_bmp _ h, ← List.map_take,
    ← flatMap_utf16_of_bmp _ (fun c hc => h c (List.mem_of_mem_take hc)), decodeUtf16_flatMap]

/-- C12 (the claim as stated fails): the maximum name length is 1 and the name of the
waypoint is the text U+1F600, b, c, whose first character takes two UTF-16 code units.
`QString::left(1)` keeps the first code unit, a high surrogate without its partner, and
`loadGpx` stores the name made of one question mark.  That is not the first character of
the picked name, which the claim says is kept, and it is not a beginning of the picked
name. -/
theorem C12_cut_inside_surrogate_pair :
    (shortNameInstance.loadGpx (exampleWorld [xmlSmiley])).1 = g2pErr.SUCCESS ∧
    (shortNameInstance.loadGpx (exampleWorld [xmlSmiley])).2.waypoints
      = [{ lat := 40, lon := -75, name := String.mk [questionMark] }] ∧
    pickName shortNameInstance.useGeocacheName shortNameInstance.useGsakSmartName "😀bc"
      none none = "😀bc" ∧
    (QString.fromText "😀bc").units = [0xD83D, 0xDE00, 98, 99] ∧
    truncName shortNameInstance.maxNameLength "😀bc" = String.mk [Char.ofNat 0x1F600] ∧
    String.mk [questionMark] ≠ truncName shortNameInstance.maxNameLength "😀bc" ∧
    ¬ ∃ dropped : List Char, "😀bc".data = (String.mk [questionMark]).data ++ dropped := by
  have hcut : ((QString.fromText "😀bc").left 1).toStdString = String.mk [questionMark] := by
    decide
  refine ⟨?_, ?_, ?_, ?_, ?_, ?_, ?_⟩
  · simp [gpx2pdf.loadGpx, gpx2pdf.loadGpxStep, exampleWorld, shortNameInstance, freshInstance,
      gpx2pdf.new, xmlSmiley]
  · simp [gpx2pdf.loadGpx, gpx2pdf.loadGpxStep, exampleWorld, shortNameInstance, freshInstance,
      gpx2pdf.new, xmlSmiley, hcut]
  · rfl
  · decide
  · decide
  · decide
  · rintro ⟨dropped, h⟩
    have hne : "😀bc".data.head? ≠ some questionMark := by decide
    have hhead : "😀bc".data.head? = some questionMark := by
      rw [h]
      rfl
    exact hne hhead

/-- C12 as amended: `loadGpx` on a parsed GPX file adds to the stored waypoints, in the
order of the file, one waypoint for every `wpt` element that has a latitude, a longitude
and a default name `d`; its name is `truncUnits maxNameLength pick`, where `pick` is the
smart name when `useGsakSmartName` is set and it is present, otherwise the geocache name
when `useGeocacheName` is set and it is present, otherwise `d`.  When `maxNameLength ≥ 0`
the stored name is the text of the first `maxNameLength` UTF-16 code units of `pick`; when
all characters of `pick` lie in the Basic Multilingual Plane that is the first
`maxNameLength` characters of `pick`, a beginning of `pick` of length at most
`maxNameLength`.  When `maxNameLength` is negative the stored name is `pick` unchanged. -/
theorem C12_loadGpx_stores_cut_pick (self : gpx2pdf) (w : World)
    (xmlWaypoints : List XmlWaypoint)
    (hfile : w.gpx self.gpxFile = GpxFile.parsed xmlWaypoints) :
    (self.loadGpx w).2.waypoints
      = self.waypoints ++ xmlWaypoints.filterMap self.storedWaypoint ∧
    (∀ (lat lon : ℚ) (d : String) (c s : Option String),
      self.storedWaypoint
          { lat := some lat, lon := some lon, name := some d, cacheName := c, gsakSmartName := s }
        = some (waypoint.mk lat lon (truncUnits self.maxNameLength
            (pickName self.useGeocacheName self.useGsakSmartName d c s)))) ∧
    (∀ (d : String) (c s : Option String),
      (self.useGsakSmartName = true → ∀ smartName, s = some smartName →
        pickName self.useGeocacheName self.useGsakSmartName d c s = smartName) ∧
      ((self.useGsakSmartName = false ∨ s = none) → self.useGeocacheName = true →
        ∀ cacheName, c = some cacheName →
        pickName self.useGeocacheName self.useGsakSmartName d c s = cacheName) ∧
      ((self.useGsakSmartName = false ∨ s = none) → (self.useGeocacheName = false ∨ c = none) →
        pickName self.useGeocacheName self.useGsakSmartName d c s = d)) ∧
    (∀ pick : String, 0 ≤ self.maxNameLength →
      truncUnits self.maxNameLength pick
        = String.mk (decodeUtf16 ((QString.fromText pick).units.take self.maxNameLength.toNat)) ∧
      ((QString.fromText pick).units.take self.maxNameLength.toNat).length
        ≤ self.maxNameLength.toNat) ∧
    (∀ pick : String, 0 ≤ self.maxNameLength → (∀ ch ∈ pick.data, ch.toNat < 0x10000) →
      (truncUnits self.maxNameLength pick).data = pick.data.take self.maxNameLength.toNat ∧
      (∃ dropped : List Char, pick.data = (truncUnits self.maxNameLength pick).data ++ dropped) ∧
      ((truncUnits self.maxNameLength pick).length : Int) ≤ self.maxNameLength) ∧
    (∀ pick : String, self.maxNameLength < 0 → truncUnits self.maxNameLength pick = pick) := by
  refine ⟨?_, ?_, ?_, ?_, ?_, ?_⟩
  · simp only [gpx2pdf.loadGpx, hfile, foldl_loadGpxStep]
    split <;> rfl
  · intro lat lon d c s
    rfl
  · intro d c s
    refine ⟨?_, ?_, ?_⟩
    · intro hs smartName hsome
      simp [pickName, hs, hsome]
    · intro hs hg cacheName hsome
      rcases hs with hs | hs <;> simp [pickName, hs, hg, hsome]
    · intro hs hg
      rcases hs with hs | hs <;> rcases hg with hg | hg <;> simp [pickName, hs, hg]
  · intro pick hn
    refine ⟨?_, ?_⟩
    · simp [truncUnits, hn, QString.fromText]
    · rw [List.length_take]
      exact Nat.min_le_left _ _
  · intro pick hn hbmp
    have hdata : (truncUnits self.maxNameLength pick).data
        = pick.data.take self.maxNameLength.toNat := by
      rw [truncUnits_of_bmp _ _ hn hbmp]
      simp [truncName, hn]
    refine ⟨hdata, ⟨pick.data.drop self.maxNameLength.toNat, ?_⟩, ?_⟩
    · rw [hdata, List.take_append_drop]
    · have hlen : (truncUnits self.maxNameLength pick).length ≤ self.maxNameLength.toNat := by
        show (truncUnits _ _).data.length ≤ _
        rw [hdata, List.length_take]
        exact Nat.min_le_left _ _
      omega
  · intro pick hn
    have : ¬ 0 ≤ self.maxNameLength := by omega
    simp [truncUnits, this]

/-- C12 as amended, an instance: a fresh instance (both names in use, maximum length
10) reads a `wpt` element with a geocache name of 22 characters and stores the waypoint
named by its first 10 characters. -/
theorem C12_loadGpx_stores_cut_pick_witness :
    (freshInstance.loadGpx (exampleWorld
      [{ lat := some 40, lon := some (-75), name := some "GC12345",
         cacheName := some "A very long cache name", gsakSmartName := none }])).2.waypoints
      = [{ lat := 40, lon := -75, name := "A very lon" }] :=
  ((C12_loadGpx_stores_cut_pick freshInstance (exampleWorld
      [{ lat := some 40, lon := some (-75), name := some "GC12345",
         cacheName := some "A very long cache name", gsakSmartName := none }]) _ rfl).1).trans
    (by decide)

end Gpx2Pdf
